import Mathlib

/-!
TheSheToMomExperience: credential proxy and proxy client

A shallow embedding of `src/backend/Node.js` (the Express routes `GET /api/config` and
`POST /api/proxy`), of `src/frontend/api.js` (`fetchFirebaseConfig`, `callGemini`) and of the
functions of `src/frontend/app.js` that decide what is sent to the services (`handleSignup`,
`saveUserProfile`, `changeScreen`, `loadCarePlanDefaults`, `generateCarePlan`,
`getMoodAnalysis`, `startPeerMatch`, `getAiPeerMatchResponse`, `getAiChatReply`), followed by
the properties proved about them.

Modelling conventions

* A JavaScript value that came out of `JSON.parse` is a `Json`; `undefined` is `none` in an
  `Option Json`. A number is identified by the text that `String` gives it (`JsNumber`), so
  no floating-point arithmetic is needed.
* `process.env` is a function from variable names to `Option String` (`none` = unset).
* The handlers write to `res`; here they return the `Res` they send. A bare `res.json(x)` sends
  status 200.
* `axios.post`, `fetch`, `JSON.parse`, the authentication and database services and the AI
  are the outside world: they are parameters of the model.
* Of the page, only what the functions decide is kept: the texts shown, the notifications
  raised and the service calls made. Styling and timers are left out.
-/

namespace SheToMom

/-! ## JSON values and the JavaScript operations the source applies to them -/

/-- A number that came out of `JSON.parse`, identified by the text `shown` that JavaScript
`String` gives it, for example `42`, `0.7`, `9007199254740992`, `1e+21`. Different numbers
have different texts, and `0` is the text of both zeros. A text that `String` gives to no
number stands for no number. -/
structure JsNumber where
  shown : String

/-- The number `0`. -/
instance : OfNat JsNumber 0 := ⟨⟨"0"⟩⟩

/-- A parsed JSON value. -/
inductive Json where
  | null
  | bool (b : Bool)
  | num (n : JsNumber)
  | str (s : String)
  | arr (xs : List Json)
  | obj (kvs : List (String × Json))
deriving Inhabited

namespace Json

/-- JavaScript `ToBoolean` on a JSON value: `null`, `false`, `0` and `""` are falsy, every
array and every object (also the empty ones) is truthy. -/
def truthy : Json → Bool
  | null => false
  | bool b => b
  | num n => n.shown != "0"
  | str s => s != ""
  | arr _ => true
  | obj _ => true

/-- The value bound to `key` in a list of object entries; as in `JSON.parse`, the last binding
of a repeated key wins. -/
def lookupLast (key : String) : List (String × Json) → Option Json
  | [] => none
  | (k, v) :: rest =>
    match lookupLast key rest with
    | some w => some w
    | none => if k = key then some v else none

/-- Property read `j[key]` for a non-index key: the bound value for an object, `undefined`
(`none`) when the key is missing and for arrays and primitives. -/
def getProp (key : String) : Json → Option Json
  | obj kvs => lookupLast key kvs
  | _ => none

mutual
/-- JavaScript `String(j)`, as a template literal applies it; `none` when the conversion
throws a `TypeError`. A string is itself. An object that has an own key `toString` cannot be
converted (the value of that key, coming from JSON, is not callable, and neither that key
nor `valueOf` yields a primitive), every other object is `[object Object]`. An array is its
elements joined by commas, and cannot be converted when one of its elements cannot. -/
def toJsString : Json → Option String
  | null => some "null"
  | bool b => some (if b then "true" else "false")
  | num n => some n.shown
  | str s => some s
  | arr xs => joinElems xs
  | obj kvs => if (lookupLast "toString" kvs).isSome then none else some "[object Object]"
/-- The body of `Array.prototype.join(",")`: `null` elements contribute the empty string, the
other elements their string form. -/
def joinElems : List Json → Option String
  | [] => some ""
  | x :: rest =>
    match (match x with
        | null => some ""
        | j => toJsString j), joinElems rest with
    | some first, some others =>
      some (first ++ (match rest with
        | [] => ""
        | _ => ",") ++ others)
    | _, _ => none
end

end Json

/-- JavaScript `ToBoolean` on a value that may be `undefined`. -/
def truthy : Option Json → Bool
  | none => false
  | some j => j.truthy

/-- Whether a value that may be `undefined` is a JSON value that can be converted to a
string without a `TypeError`. -/
def hasStringForm : Option Json → Bool
  | none => false
  | some j => j.toJsString.isSome

/-- The process environment `process.env`: each variable is unset or holds a string. -/
abbrev Env := String → Option String

/-- JavaScript `ToBoolean` on an environment variable: unset and `""` are falsy. -/
def envTruthy : Option String → Bool
  | none => false
  | some s => s != ""

/-- What a handler sends back: `res.status(status).json(body)`. -/
structure Res where
  status : Nat
  body : Json

/-! ## `GET /api/config` (Node.js, lines 27-46) -/

/-- The object literal `firebaseConfig` of lines 29-37: field name and the environment value
read for it (`none` when the variable is unset). -/
def firebaseConfig (env : Env) : List (String × Option String) :=
  [ ("apiKey", env "FB_API_KEY"),
    ("authDomain", env "FB_AUTH_DOMAIN"),
    ("projectId", env "FB_PROJECT_ID"),
    ("storageBucket", env "FB_STORAGE_BUCKET"),
    ("messagingSenderId", env "FB_MESSAGING_SENDER_ID"),
    ("appId", env "FB_APP_ID"),
    ("measurementId", env "FB_MEASUREMENT_ID") ]

/-- The seven environment variables read by `GET /api/config`. -/
def providerVars : List String :=
  [ "FB_API_KEY", "FB_AUTH_DOMAIN", "FB_PROJECT_ID", "FB_STORAGE_BUCKET",
    "FB_MESSAGING_SENDER_ID", "FB_APP_ID", "FB_MEASUREMENT_ID" ]

/-- The seven field names of the configuration object. -/
def providerFields : List String :=
  [ "apiKey", "authDomain", "projectId", "storageBucket", "messagingSenderId", "appId",
    "measurementId" ]

/-- The serialisation `res.json` applies to an object of possibly-undefined strings:
`JSON.stringify` leaves out the fields whose value is `undefined`. -/
def jsonOfFields (fields : List (String × Option String)) : Json :=
  Json.obj (fields.filterMap fun kv => kv.2.map fun s => (kv.1, Json.str s))

/-- The body of the 500 answer of `GET /api/config` (line 42). -/
def configErrorBody : Json :=
  Json.obj [("error", Json.str "Server configuration error.")]

/-- The handler of `GET /api/config`, lines 27-46. -/
def getConfig (env : Env) : Res :=
  if ((firebaseConfig env).map Prod.snd).any (fun key => !envTruthy key) then
    { status := 500, body := configErrorBody }
  else
    { status := 200, body := jsonOfFields (firebaseConfig env) }

/-! ## `POST /api/proxy` (Node.js, lines 54-87) -/

/-- The arguments of one `axios.post(url, data, { headers })` call. -/
structure Outbound where
  method : String
  url : String
  data : Json
  headers : List (String × String)
deriving Inhabited

/-- How an `axios.post` call ends: it resolves with `response.data`, or it rejects with an error
that carries `error.response` (`status`, `data`), or with one that has only `error.message`. -/
inductive AxiosOutcome where
  | resolved (data : Json)
  | rejectedWithResponse (status : Nat) (data : Json)
  | rejectedNoResponse (message : String)

/-- The body of the 500 answer when `GEMINI_API_KEY` is falsy (line 59). -/
def noKeyBody : Json :=
  Json.obj [("error", Json.str "API key not configured on server.")]

/-- The body of the 400 answer (line 65). -/
def missingFieldsBody : Json :=
  Json.obj [("error", Json.str "Missing apiUrl or payload")]

/-- The error envelope of lines 82-85. -/
def upstreamErrorBody (details : Json) : Json :=
  Json.obj [("error", Json.str "Failed to fetch from Gemini API"), ("details", details)]

/-- The `message` of the `TypeError` that Node.js throws when a value cannot be converted to
a string. -/
def conversionErrorMessage : String :=
  "Cannot convert object to primitive value"

/-- The handler of `POST /api/proxy`, lines 54-87. `reqBody` is `req.body` as `express.json()`
leaves it (an object or an array, `{}` when the request had no JSON body). The result is the
answer sent and the list of `axios.post` calls made, in order. The template literal of line
70 is inside the `try` block: when `apiUrl` cannot be converted to a string, the `TypeError`
is caught, has no `response`, and is answered 500 with its message, before any call. -/
def proxyHandler (env : Env) (axiosPost : Outbound → AxiosOutcome) (reqBody : Json) :
    Res × List Outbound :=
  match env "GEMINI_API_KEY" with
  | none => ({ status := 500, body := noKeyBody }, [])
  | some GEMINI_API_KEY =>
    if !envTruthy (some GEMINI_API_KEY) then
      ({ status := 500, body := noKeyBody }, [])
    else
      match reqBody.getProp "apiUrl", reqBody.getProp "payload" with
      | some apiUrl, some payload =>
        if !apiUrl.truthy || !payload.truthy then
          ({ status := 400, body := missingFieldsBody }, [])
        else
          match apiUrl.toJsString with
          | none =>
            ({ status := 500, body := upstreamErrorBody (Json.str conversionErrorMessage) }, [])
          | some urlText =>
            let fullUrl := urlText ++ "?key=" ++ GEMINI_API_KEY
            let call : Outbound :=
              { method := "POST", url := fullUrl, data := payload,
                headers := [("Content-Type", "application/json")] }
            match axiosPost call with
            | .resolved data => ({ status := 200, body := data }, [call])
            | .rejectedWithResponse status data =>
              ({ status := status, body := upstreamErrorBody data }, [call])
            | .rejectedNoResponse message =>
              ({ status := 500, body := upstreamErrorBody (Json.str message) }, [call])
      | _, _ => ({ status := 400, body := missingFieldsBody }, [])

/-! ## Which strings a value mentions -/

/-- Whether `needle` is an initial segment of `hay`. -/
def startsWith : List Char → List Char → Bool
  | [], _ => true
  | _ :: _, [] => false
  | a :: as, b :: bs => a == b && startsWith as bs

/-- Whether `needle` occurs in `hay` as a contiguous run of characters. -/
def occursInChars (needle : List Char) : List Char → Bool
  | [] => startsWith needle []
  | c :: cs => startsWith needle (c :: cs) || occursInChars needle cs

/-- Whether the text `s` occurs inside the text `t`. -/
def occursIn (s t : String) : Bool :=
  occursInChars s.toList t.toList

namespace Json

mutual
/-- Whether the text `s` occurs in `j`: inside one of its string values, one of its object
keys, or the text of one of its numbers. -/
def mentions (s : String) : Json → Bool
  | null => false
  | bool _ => false
  | num n => occursIn s n.shown
  | str t => occursIn s t
  | arr xs => mentionsAny s xs
  | obj kvs => mentionsEntry s kvs
/-- Whether `s` occurs in one of the elements. -/
def mentionsAny (s : String) : List Json → Bool
  | [] => false
  | x :: rest => mentions s x || mentionsAny s rest
/-- Whether `s` occurs in one of the keys or values of the entries. -/
def mentionsEntry (s : String) : List (String × Json) → Bool
  | [] => false
  | (k, v) :: rest => occursIn s k || mentions s v || mentionsEntry s rest
end

end Json

/-- Whether the text `s` occurs in what an `axios.post` call handed back: `response.data`,
`error.response.data`, or `error.message`. -/
def AxiosOutcome.mentions (s : String) : AxiosOutcome → Bool
  | .resolved data => data.mentions s
  | .rejectedWithResponse _ data => data.mentions s
  | .rejectedNoResponse message => occursIn s message

/-- The texts the `/api/proxy` handler puts into its answers without any upstream: the keys
and messages of lines 59, 65, 83, 84, and the message of the `TypeError` of line 70. -/
def proxyFixedTexts : List String :=
  [ "error", "details", "API key not configured on server.", "Missing apiUrl or payload",
    "Failed to fetch from Gemini API", conversionErrorMessage ]

/-! ## The client: `callGemini` (api.js, lines 43-68) -/

/-- The arguments of one `fetch(url, { method, headers, body })` call. `body` is the value
whose `JSON.stringify` text is sent. -/
structure FetchRequest where
  url : String
  method : String
  headers : List (String × String)
  body : Json

/-- What `fetch` resolves with: the status line, and what `response.json()` gives (the parsed
body, or the message it rejects with when the body is not JSON). -/
structure FetchResponse where
  status : Nat
  statusText : String
  json : Except String Json

/-- The getter `response.ok`: the status is in the range 200-299. -/
def FetchResponse.ok (r : FetchResponse) : Bool :=
  decide (200 ≤ r.status) && decide (r.status ≤ 299)

/-- What a client function throws. -/
inductive ClientError where
  /-- The rejection of `fetch` itself (no response arrived). -/
  | network (message : String)
  /-- The rejection of `response.json()`: the body is not JSON. -/
  | badJson (message : String)
  /-- The `TypeError` of reading a property of `null`. -/
  | nullRead
  /-- The `TypeError` of converting to a string a value that has no string form. -/
  | notPrimitive
  /-- An explicit `throw new Error(message)`. -/
  | thrown (message : String)

/-- The request `callGemini` passes to `fetch` (lines 45-54). -/
def callGeminiRequest (modelUrl : String) (payload : Json) : FetchRequest :=
  { url := "/api/proxy",
    method := "POST",
    headers := [("Content-Type", "application/json")],
    body := Json.obj [("apiUrl", Json.str modelUrl), ("payload", payload)] }

/-- The function `callGemini(modelUrl, payload)`, lines 43-68. `fetch` is the network, with an
explicit world state `W`; the `catch` block logs and rethrows, so every failure is returned
unchanged, also the `TypeError` of the template literal of line 59 when the value it shows
cannot be converted to a string. -/
def callGemini {W : Type} (fetch : FetchRequest → W → Except ClientError FetchResponse × W)
    (modelUrl : String) (payload : Json) (w : W) : Except ClientError Json × W :=
  match fetch (callGeminiRequest modelUrl payload) w with
  | (.error e, w1) => (.error e, w1)
  | (.ok response, w1) =>
    if !response.ok then
      match response.json with
      | .error m => (.error (.badJson m), w1)
      | .ok Json.null => (.error .nullRead, w1)
      | .ok errorData =>
        let shown : Option String :=
          match errorData.getProp "error" with
          | some v => if v.truthy then v.toJsString else some response.statusText
          | none => some response.statusText
        match shown with
        | none => (.error .notPrimitive, w1)
        | some text => (.error (.thrown ("Proxy error: " ++ text)), w1)
    else
      match response.json with
      | .error m => (.error (.badJson m), w1)
      | .ok data => (.ok data, w1)

/-! ## Client and server composed -/

/-- The Express application seen from `fetch`; `reason` gives the status text of a status
code and `bodyBytes` the length in bytes of the JSON text of a request body. The world state
is the list of `axios.post` calls the server has made.

A `GET /api/config` goes to its handler (a GET carries no body). Every other GET goes to the
static file middleware, which is not modelled: it is answered 404 with a body that is not
JSON. For a request with a body, `express.json()` of line 17 runs first: a body of more than
its default limit of 100kb (102400 bytes) is answered 413, and a body that is neither an
object nor an array is answered 400, both by the error handler of Express with a body that
is not JSON and without running a route; otherwise `req.body` is the value that was
serialised (the request is taken to carry `Content-Type: application/json`, as every request
of `callGemini` does). A `POST /api/proxy` then goes to its handler, whose answer is sent as
JSON, and any other request is answered 404. -/
def server (env : Env) (axiosPost : Outbound → AxiosOutcome) (reason : Nat → String)
    (bodyBytes : Json → Nat) (req : FetchRequest) (log : List Outbound) :
    Except ClientError FetchResponse × List Outbound :=
  if req.method = "GET" then
    if req.url = "/api/config" then
      let res := getConfig env
      (.ok { status := res.status, statusText := reason res.status, json := .ok res.body }, log)
    else
      (.ok { status := 404, statusText := reason 404, json := .error "not JSON" }, log)
  else if 102400 < bodyBytes req.body then
    (.ok { status := 413, statusText := reason 413, json := .error "not JSON" }, log)
  else
    match req.body with
    | Json.null | Json.bool _ | Json.num _ | Json.str _ =>
      (.ok { status := 400, statusText := reason 400, json := .error "not JSON" }, log)
    | reqBody =>
      if req.method = "POST" ∧ req.url = "/api/proxy" then
        let out := proxyHandler env axiosPost reqBody
        (.ok { status := out.1.status, statusText := reason out.1.status, json := .ok out.1.body },
          log ++ out.2)
      else
        (.ok { status := 404, statusText := reason 404, json := .error "not JSON" }, log)

/-- The value the upstream reads as the JSON body of an `axios.post` call carrying `data`
with the header `Content-Type: application/json`. The request transform of axios (a library,
not part of the repository) sends a string that is itself JSON text as that text, and every
other value as its JSON text; `jsonParse` is `JSON.parse` (`none` when it throws). -/
def receivedBody (jsonParse : String → Option Json) (data : Json) : Json :=
  match data with
  | Json.str text =>
    match jsonParse text with
    | some value => value
    | none => Json.str text
  | value => value

/-- A `fetch` that answers with `answer` and records every request it is given. -/
def recordingFetch (answer : FetchRequest → Except ClientError FetchResponse)
    (req : FetchRequest) (sent : List FetchRequest) :
    Except ClientError FetchResponse × List FetchRequest :=
  (answer req, sent ++ [req])

/-! ## The client: `fetchFirebaseConfig` (api.js, lines 18-35) -/

/-- What a call of `fetchFirebaseConfig` leaves behind: the value returned or the error
thrown, whether `document.body.innerHTML` was replaced by the Connection Error page, and the
world after the `fetch`. -/
structure ConfigFetch (W : Type) where
  result : Except ClientError Json
  errorPage : Bool
  world : W

/-- The function `fetchFirebaseConfig()`, lines 18-35. `fetchUrl` is `fetch` called with a URL
only (a GET without headers or body). The `catch` block logs, replaces the page and rethrows
what it caught. -/
def fetchFirebaseConfig {W : Type}
    (fetchUrl : String → W → Except ClientError FetchResponse × W) (w : W) : ConfigFetch W :=
  match fetchUrl "/api/config" w with
  | (.error e, w1) => { result := .error e, errorPage := true, world := w1 }
  | (.ok response, w1) =>
    if !response.ok then
      { result := .error (.thrown "Could not fetch Firebase config from server."),
        errorPage := true, world := w1 }
    else
      match response.json with
      | .error m => { result := .error (.badJson m), errorPage := true, world := w1 }
      | .ok config => { result := .ok config, errorPage := false, world := w1 }

/-! ## Reading a URL the standard way

These definitions are not taken from the source: they spell out the reading of a URL that
the property about the `key` parameter refers to. -/

/-- The characters before the first `c`, and the characters after it when there is one. -/
def splitAtFirst (c : Char) : List Char → List Char × Option (List Char)
  | [] => ([], none)
  | x :: xs =>
    if x = c then ([], some xs)
    else ((x :: (splitAtFirst c xs).1), (splitAtFirst c xs).2)

/-- The pieces between the occurrences of `c`. -/
def splitAll (c : Char) : List Char → List (List Char)
  | [] => [[]]
  | x :: xs =>
    if x = c then [] :: splitAll c xs
    else
      match splitAll c xs with
      | [] => [[x]]
      | piece :: pieces => (x :: piece) :: pieces

/-- A URL read the standard way: what precedes the query, the query parameters as raw text,
and the fragment when there is one. -/
structure UrlParts where
  path : String
  params : List (String × String)
  fragment : Option String

/-- One query parameter `name=value`, separated at its first `=`. -/
def queryParam (kv : List Char) : String × String :=
  match splitAtFirst '=' kv with
  | (name, none) => (String.mk name, "")
  | (name, some value) => (String.mk name, String.mk value)

/-- Whether a character is one that URL encoding and decoding leave as it is: a letter, a
digit, or one of `-`, `_`, `.`, `~`. -/
def isUnreserved (c : Char) : Bool :=
  (decide (48 ≤ c.toNat) && decide (c.toNat ≤ 57))
    || (decide (65 ≤ c.toNat) && decide (c.toNat ≤ 90))
    || (decide (97 ≤ c.toNat) && decide (c.toNat ≤ 122))
    || c = '-' || c = '_' || c = '.' || c = '~'

/-- The standard reading of a URL: the first `#` starts the fragment; in what precedes it,
the first `?` starts the query and `&` separates its parameters, empty ones being skipped.
Names and values are the raw text, without percent-decoding. -/
def urlParts (url : String) : UrlParts :=
  let cut := splitAtFirst '#' url.toList
  match splitAtFirst '?' cut.1 with
  | (path, none) =>
    { path := String.mk path, params := [], fragment := cut.2.map String.mk }
  | (path, some query) =>
    { path := String.mk path,
      params := ((splitAll '&' query).filter fun piece => !piece.isEmpty).map queryParam,
      fragment := cut.2.map String.mk }

/-! ## JavaScript string operations used by app.js -/

/-- The white space and line terminator characters that `String.prototype.trim` and
`parseInt` skip. -/
def isJsWhitespace (c : Char) : Bool :=
  [9, 10, 11, 12, 13, 32, 160, 5760, 8232, 8233, 8239, 8287, 12288, 65279].contains c.toNat
    || (decide (8192 ≤ c.toNat) && decide (c.toNat ≤ 8202))

/-- The method `s.trim()`. -/
def jsTrim (s : String) : String :=
  String.mk ((s.toList.dropWhile isJsWhitespace).reverse.dropWhile isJsWhitespace).reverse

/-- The property `s.length`: the number of UTF-16 code units. -/
def jsLength (s : String) : Nat :=
  (s.toList.map fun c => if c.toNat < 65536 then 1 else 2).sum

/-- The value of a character as a digit in a radix up to 36, if it is one. -/
def digitValue (c : Char) : Option Nat :=
  if decide (48 ≤ c.toNat) && decide (c.toNat ≤ 57) then some (c.toNat - 48)
  else if decide (97 ≤ c.toNat) && decide (c.toNat ≤ 122) then some (c.toNat - 97 + 10)
  else if decide (65 ≤ c.toNat) && decide (c.toNat ≤ 90) then some (c.toNat - 65 + 10)
  else none

/-- The digits of the longest initial run of radix-`radix` digits. -/
def takeDigits (radix : Nat) : List Char → List Nat
  | [] => []
  | c :: cs =>
    match digitValue c with
    | some d => if d < radix then d :: takeDigits radix cs else []
    | none => []

/-- The sign that `parseInt` reads, and the characters after it. -/
def readSign : List Char → Bool × List Char
  | '-' :: rest => (true, rest)
  | '+' :: rest => (false, rest)
  | cs => (false, cs)

/-- The radix that `parseInt` uses when none is given, and the characters after a `0x` or
`0X` marker. -/
def readRadix : List Char → Nat × List Char
  | '0' :: 'x' :: rest => (16, rest)
  | '0' :: 'X' :: rest => (16, rest)
  | cs => (10, cs)

/-- The function `parseInt(s)` without a radix argument; `none` is `NaN`. Leading white space
is skipped, then an optional sign, then an optional `0x`; the longest run of digits that
follows is the value, and there is no value when that run is empty. -/
def parseInt (s : String) : Option Int :=
  let signed := readSign (s.toList.dropWhile isJsWhitespace)
  let based := readRadix signed.2
  match takeDigits based.1 based.2 with
  | [] => none
  | d :: ds =>
    let n : Nat := (d :: ds).foldl (fun acc digit => acc * based.1 + digit) 0
    some (if signed.1 then - (n : Int) else (n : Int))

/-- The comparison `parseInt(age) < 18`: every comparison with `NaN` is false. -/
def parsesBelow18 (age : String) : Bool :=
  match parseInt age with
  | none => false
  | some n => decide (n < 18)

/-! ## Sign-up and profile (app.js, lines 131-170, 254-313) -/

/-- The object `profileData` of `saveUserProfileData` (lines 304-310), without its
`lastUpdated: serverTimestamp()` field; `age` is the result of `parseInt`, `none` for `NaN`. -/
structure ProfileData where
  name : String
  email : String
  age : Option Int
  location : String

/-- A call to the authentication or database service. -/
inductive Effect where
  /-- The call `createUserWithEmailAndPassword(auth, email, password)`. -/
  | createUser (email password : String)
  /-- The call `setDoc(doc(db, path), profile, { merge: true })`. -/
  | setDoc (path : String) (profile : ProfileData)

/-- The function `PROFILE_PATH(uid)`, line 42. -/
def PROFILE_PATH (uid : String) : String :=
  "/users/" ++ uid ++ "/profile/main"

/-- The function `saveUserProfileData`, lines 303-313: the one `setDoc` call it makes. -/
def saveUserProfileData (uid name email : String) (age : Option Int) (location : String) :
    Effect :=
  .setDoc (PROFILE_PATH uid) { name := name, email := email, age := age, location := location }

/-- What `handleSignup` leaves behind: the text shown in `signup-error` (`none` when it stays
hidden) and the service calls made, in order. -/
structure SignupResult where
  errorText : Option String
  effects : List Effect

/-- The function `handleSignup`, lines 131-170. The arguments are the values of the five
form fields; `createUser` and `setDocOk` say how the two service calls end (a rejection
carries `error.code`, which may be absent). -/
def handleSignup (createUser : String → String → Except (Option String) String)
    (setDocOk : String → Except (Option String) Unit)
    (nameField emailField passwordField ageField locationField : String) : SignupResult :=
  let name := jsTrim nameField
  let email := jsTrim emailField
  let password := passwordField
  let age := jsTrim ageField
  let location := jsTrim locationField
  if name = "" || email = "" || decide (jsLength password < 6) || age = "" || location = "" then
    { errorText := some "Please fill out all fields. Password needs 6 characters.", effects := [] }
  else if parsesBelow18 age then
    { errorText := some "You must be at least 18 to sign up.", effects := [] }
  else
    let signupError (code : Option String) : String :=
      if code = some "auth/email-already-in-use" then
        "This email is already in use. Please Login."
      else "Could not create account. Please try again."
    match createUser email password with
    | .error code =>
      { errorText := some (signupError code), effects := [.createUser email password] }
    | .ok uid =>
      let write := saveUserProfileData uid name email (parseInt age) location
      match setDocOk uid with
      | .error code =>
        { errorText := some (signupError code), effects := [.createUser email password, write] }
      | .ok _ => { errorText := none, effects := [.createUser email password, write] }

/-- What `saveUserProfile` leaves behind: the notification raised by `UI.alertUser`, the
texts shown in `profile-error` and `profile-success`, the service calls made, and the new
value of the global `userName` when it is assigned. -/
structure ProfileSaveResult where
  alert : Option (String × String)
  errorText : Option String
  successText : Option String
  effects : List Effect
  userName : Option String

/-- The function `saveUserProfile`, lines 254-298, up to the timer that hides the success
text. `userId` is the global (`none` for `null`); the other arguments are the values of the
four form fields. -/
def saveUserProfile (userId : Option String) (setDocOk : String → Except (Option String) Unit)
    (nameField emailField ageField locationField : String) : ProfileSaveResult :=
  match userId with
  | none =>
    { alert := some ("You are not logged in. Please refresh and log in again.", "Error"),
      errorText := none, successText := none, effects := [], userName := none }
  | some uid =>
    if uid = "" then
      { alert := some ("You are not logged in. Please refresh and log in again.", "Error"),
        errorText := none, successText := none, effects := [], userName := none }
    else
      let name := jsTrim nameField
      let email := jsTrim emailField
      let age := jsTrim ageField
      let location := jsTrim locationField
      if decide (jsLength name < 2) || !email.toList.contains '@' || age = ""
          || parsesBelow18 age then
        { alert := none, errorText := some "Please enter a valid name, email, and age.",
          successText := none, effects := [], userName := none }
      else
        let write := saveUserProfileData uid name email (parseInt age) location
        match setDocOk uid with
        | .error _ =>
          { alert := none, errorText := some "Could not update profile. Please try again.",
            successText := none, effects := [write], userName := none }
        | .ok _ =>
          { alert := none, errorText := none,
            successText := some "Profile updated successfully!", effects := [write],
            userName := some name }

/-! ## Reading the answer of the AI (app.js) -/

/-- The optional property read `v?.key` on a value that may be `undefined`. -/
def optProp (key : String) : Option Json → Option Json
  | none => none
  | some Json.null => none
  | some j => j.getProp key

/-- The optional element read `v?.[0]` on a value that may be `undefined`: the first element
of an array, the first character of a string, the property `0` of an object. -/
def optIndex0 : Option Json → Option Json
  | some (Json.arr xs) => xs.head?
  | some (Json.str s) => s.toList.head?.map fun c => Json.str (String.mk [c])
  | some (Json.obj kvs) => Json.lookupLast "0" kvs
  | _ => none

/-- The expression `result.candidates?.[0]?.content?.parts?.[0]?.text`: reading `candidates`
of `null` throws, every later step is optional. -/
def candidateText (result : Json) : Except ClientError (Option Json) :=
  match result with
  | Json.null => .error .nullRead
  | _ =>
    .ok (optProp "text" (optIndex0 (optProp "parts" (optProp "content"
      (optIndex0 (result.getProp "candidates"))))))

/-- The expression `x || fallback` for a value that may be `undefined`. -/
def orElse (x : Option Json) (fallback : Json) : Json :=
  match x with
  | some j => if j.truthy then j else fallback
  | none => fallback

/-- The object `{ parts: [{ text: t }] }`. -/
def partsOf (t : Json) : Json :=
  Json.obj [("parts", Json.arr [Json.obj [("text", t)]])]

/-! ## The care plan (app.js, lines 397-489) -/

/-- The text `systemPrompt` of `generateCarePlan`, lines 441-447. -/
def carePlanSystemPrompt : String :=
  "You are a warm, empathetic \"Dai\" (traditional midwife/caregiver) AI "
  ++ "specializing in Indian Vedic and Ayurvedic postpartum wellness. Your "
  ++ "goal is to provide supportive, concise, and culturally relevant "
  ++ "advice. Based on the user's description, provide a 3-part plan (Food, "
  ++ "Body, Mind) using traditional Indian and Ayurvedic concepts.\n    "
  ++ "**Structure the output strictly as follows:**\n    1.  **Based on your "
  ++ "description...** (A brief, empathetic acknowledgement of their state, "
  ++ "using nurturing language)\n    2.  **Food (Ahara):** Provide 2-3 "
  ++ "specific, warming, and easily digestible food recommendations (e.g., "
  ++ "moong dal khichdi, haldi doodh, dry fruit laddoo).\n    3.  **Body "
  ++ "(Vihara):** Provide 2-3 recommendations for physical comfort or "
  ++ "routine (e.g., oil massage (abhyanga), warm water baths, gentle "
  ++ "yoga).\n    4.  **Mind (Mana):** Provide 2-3 recommendations for "
  ++ "emotional/mental peace (e.g., a simple breathing exercise, a "
  ++ "culturally relevant mantra, quiet time).\n    The tone must be "
  ++ "encouraging and nurturing."

/-- The module variable `latestJournalContent` and the `plan-query` field. -/
structure CarePlanState where
  latestJournalContent : String
  planQuery : String
  placeholder : String

/-- The function `loadCarePlanDefaults`, lines 399-415. `latest` is the newest journal entry
as the query returns it: `none` when the snapshot is empty, else the text of its date
(`toLocaleDateString()`) and its `content`. -/
def loadCarePlanDefaults (userId : Option String) (latest : Option (String × String))
    (st : CarePlanState) : CarePlanState :=
  if !envTruthy userId then st
  else
    match latest with
    | some (dateText, content) =>
      { latestJournalContent := content,
        planQuery := "[Loaded from Journal - " ++ dateText ++ "]\n\n" ++ content,
        placeholder := "Using journal data... You can still modify this if needed." }
    | none =>
      { latestJournalContent := "",
        planQuery := "",
        placeholder := "Example: I feel very low energy, struggling with sleep, and have a "
          ++ "mild headache..." }

/-- How `generateCarePlan` goes on after reading the field: it raises a notification and
returns, or it calls `API.callGemini(API.GEMINI_URLS.flash, payload)`. -/
inductive CarePlanStep where
  | alert (message kind : String)
  | call (payload : Json)

/-- The text `userQuery` of line 449. -/
def carePlanUserQuery (query : String) : String :=
  "My current state is: \"" ++ query ++ "\""

/-- The function `generateCarePlan`, lines 417-458, up to the call of the AI; what follows
only renders the answer. `planQueryValue` is the value of the `plan-query` field. -/
def generateCarePlan (isMomRole : Bool) (latestJournalContent planQueryValue : String) :
    CarePlanStep :=
  if !isMomRole then .alert "You must be logged in to use this feature." "Error"
  else
    let typed := jsTrim planQueryValue
    let query :=
      if startsWith "[Loaded from Journal".toList typed.toList then latestJournalContent
      else typed
    if jsLength query < 10 then
      .alert ("Please provide a detailed description of your current state (mood, symptoms, "
        ++ "energy).") "Warning"
    else
      .call (Json.obj
        [ ("contents", Json.arr [partsOf (Json.str (carePlanUserQuery query))]),
          ("tools", Json.arr [Json.obj [("google_search", Json.obj [])]]),
          ("systemInstruction", partsOf (Json.str carePlanSystemPrompt)) ])

/-! ## The journal: `getMoodAnalysis` (app.js, lines 529-561) -/

/-- The text `systemPrompt` of `getMoodAnalysis`, line 530. -/
def moodSystemPrompt : String :=
  "Analyze the user's journal entry for overall emotional state (mood) "
  ++ "and provide a concise, empathetic, and culturally sensitive "
  ++ "single-sentence insight or observation based on the content. The mood "
  ++ "should be a single word (e.g., 'Tired', 'Anxious', 'Joyful')."

/-- The object returned by the `catch` block of `getMoodAnalysis`, line 559. -/
def defaultMood : Json :=
  Json.obj [ ("mood", Json.str "Reflective"),
             ("insight", Json.str "It takes courage to write your feelings. Keep going.") ]

/-- The object `payload` of `getMoodAnalysis`, lines 531-547. -/
def moodPayload (entryContent : String) : Json :=
  Json.obj
    [ ("contents", Json.arr [partsOf (Json.str
        ("Analyze the following journal entry written by a new mother: \""
          ++ entryContent ++ "\""))]),
      ("systemInstruction", partsOf (Json.str moodSystemPrompt)),
      ("generationConfig", Json.obj
        [ ("responseMimeType", Json.str "application/json"),
          ("responseSchema", Json.obj
            [ ("type", Json.str "OBJECT"),
              ("properties", Json.obj
                [ ("mood", Json.obj
                    [ ("type", Json.str "STRING"),
                      ("description", Json.str "The primary single-word mood detected.") ]),
                  ("insight", Json.obj
                    [ ("type", Json.str "STRING"),
                      ("description", Json.str
                        "A single, supportive sentence of insight based on the entry.") ]) ]),
              ("propertyOrdering", Json.arr [Json.str "mood", Json.str "insight"]) ]) ]) ]

/-- The function `getMoodAnalysis`, lines 529-561. `callAi` is
`API.callGemini(API.GEMINI_URLS.flash, ·)` and `jsonParse` is `JSON.parse` on a text (`none`
when it throws); `JSON.parse` first converts its argument to a string. Everything thrown
inside the `try` block ends in the default object. -/
def getMoodAnalysis (jsonParse : String → Option Json)
    (callAi : Json → Except ClientError Json) (entryContent : String) : Json :=
  match callAi (moodPayload entryContent) with
  | .error _ => defaultMood
  | .ok result =>
    match candidateText result with
    | .error _ => defaultMood
    | .ok none => defaultMood
    | .ok (some jsonText) =>
      if jsonText.truthy then
        match jsonText.toJsString with
        | none => defaultMood
        | some text =>
          match jsonParse text with
          | some parsed => parsed
          | none => defaultMood
      else defaultMood

/-! ## The peer chat (app.js, lines 628-749) -/

/-- The text `systemPrompt` of `getAiPeerMatchResponse`, lines 682-687. -/
def peerMatchSystemPrompt : String :=
  "You are an empathetic, anonymous mother (Peer Mom) who has been "
  ++ "matched with another new mother based on their current problem. Your "
  ++ "goal is to start a supportive, culturally sensitive, and "
  ++ "non-judgemental conversation.\n    Based on the details below, craft a "
  ++ "first message (1-2 paragraphs) that:\n    1. Acknowledges their "
  ++ "specific problem and emotional state.\n    2. Shares a brief, "
  ++ "relatable struggle (real or fictional) to build rapport.\n    3. Ends "
  ++ "with an open-ended question to encourage the new mom to share more.\n  "
  ++ "  Do NOT introduce yourself as an AI. Sign off simply as \"Peer Mom.\""

/-- The text `systemPrompt` of `getAiChatReply`, line 727. -/
def chatReplySystemPrompt : String :=
  "You are an empathetic Peer Mom in an anonymous chat. Now, provide a "
  ++ "short, supportive, and conversational reply (2-3 sentences max) to "
  ++ "the user's latest message. Offer validation, a piece of simple "
  ++ "advice, or ask a follow-up question. Do not introduce yourself or "
  ++ "sign off. Keep the tone gentle."

/-- One element of `chatHistory`: `{ role: role, parts: [{ text: text }] }`. -/
def chatEntry (role : String) (text : Json) : Json :=
  Json.obj [("role", Json.str role), ("parts", Json.arr [Json.obj [("text", text)]])]

/-- The function `getAiPeerMatchResponse`, lines 681-707: the message it returns and the
module variable `chatHistory` after it. `callAi` is `API.callGemini(API.GEMINI_URLS.flash, ·)`. -/
def getAiPeerMatchResponse (callAi : Json → Except ClientError Json)
    (problem mood health preference : String) (chatHistory : List Json) : Json × List Json :=
  let userQuery := "My problem is: " ++ problem ++ ". My mood is " ++ mood
    ++ " and my health issue is " ++ health ++ ". I want to talk to someone about: "
    ++ preference
  let payload := Json.obj
    [ ("contents", Json.arr [partsOf (Json.str userQuery)]),
      ("systemInstruction", partsOf (Json.str peerMatchSystemPrompt)) ]
  let caught := Json.str ("I understand you are having a tough time. It’s okay to feel this "
    ++ "way. What is the one thing you wish someone could help you with right now?")
  match callAi payload with
  | .error _ => (caught, chatHistory)
  | .ok result =>
    match candidateText result with
    | .error _ => (caught, chatHistory)
    | .ok text =>
      let aiResponse := orElse text
        (Json.str "Hello. I am here to listen. Tell me more about your day.")
      (aiResponse, chatHistory ++ [chatEntry "model" aiResponse])

/-- What `startPeerMatch` leaves behind: the notification raised, the module variable
`chatHistory`, the opening message put into the emptied chat container, the screen changed
to, and the text shown in `match-error` (`none` when it stays hidden). -/
structure PeerMatchResult where
  alert : Option (String × String)
  chatHistory : List Json
  opening : Option Json
  screen : Option String
  errorText : Option String

/-- The function `startPeerMatch`, lines 630-679. The first four arguments after `callAi`
are the values of the form fields. `addMessageToChat` shows the message through a template
literal: for a message without string form it throws, after `chatHistory` was emptied, and
the `catch` block shows the error text instead. -/
def startPeerMatch (isMomRole : Bool) (callAi : Json → Except ClientError Json)
    (moodField healthField problemField preferenceField : String) (chatHistory : List Json) :
    PeerMatchResult :=
  if !isMomRole then
    { alert := some ("You must be logged in to use this feature.", "Error"),
      chatHistory := chatHistory, opening := none, screen := none, errorText := none }
  else
    let problem := jsTrim problemField
    let preference := jsTrim preferenceField
    if jsLength problem < 10 then
      { alert := some ("Please describe the problem you want to discuss.", "Warning"),
        chatHistory := chatHistory, opening := none, screen := none, errorText := none }
    else
      let answered := getAiPeerMatchResponse callAi problem moodField healthField preference
        chatHistory
      let aiResponse := answered.1
      let chatHistory : List Json := []
      match aiResponse.toJsString with
      | none =>
        { alert := none, chatHistory := chatHistory, opening := none, screen := none,
          errorText := some "Error starting match. Please try again." }
      | some _ =>
        { alert := none, chatHistory := chatHistory, opening := some aiResponse,
          screen := some "peer-chat", errorText := none }

/-- What `getAiChatReply` leaves behind: the payload it sent, the reply shown in the chat,
and the module variable `chatHistory`. -/
structure ChatReplyResult where
  payload : Json
  shown : Json
  chatHistory : List Json

/-- The function `getAiChatReply`, lines 719-749. `addMessageToChat` shows the reply through a
template literal before the reply is pushed: for a reply without string form it throws, and
the `catch` block shows the fixed message instead. -/
def getAiChatReply (callAi : Json → Except ClientError Json) (userMessage : String)
    (chatHistory : List Json) : ChatReplyResult :=
  let chatHistory := chatHistory ++ [chatEntry "user" (Json.str userMessage)]
  let payload := Json.obj
    [ ("contents", Json.arr chatHistory),
      ("systemInstruction", partsOf (Json.str chatReplySystemPrompt)) ]
  let dropped := Json.str "Oops! The connection dropped. I still support you, though!"
  match callAi payload with
  | .error _ => { payload := payload, shown := dropped, chatHistory := chatHistory }
  | .ok result =>
    match candidateText result with
    | .error _ => { payload := payload, shown := dropped, chatHistory := chatHistory }
    | .ok text =>
      let aiReply := orElse text (Json.str "That sounds incredibly hard. I'm here for you.")
      match aiReply.toJsString with
      | none => { payload := payload, shown := dropped, chatHistory := chatHistory }
      | some _ =>
        { payload := payload, shown := aiReply,
          chatHistory := chatHistory ++ [chatEntry "model" aiReply] }

/-! ## Screens: `changeScreen` (app.js, lines 363-392) -/

/-- The pre-load steps at the end of `changeScreen`. -/
inductive Preload where
  /-- The call `loadCarePlanDefaults()` for the screen `care-plan`. -/
  | carePlanDefaults
  /-- The call `loadUserProfile()` for the screens `dashboard` and `profile-setup`. -/
  | userProfile
  /-- The reset of the field `chat-reply-content` for the screen `peer-chat`. -/
  | clearChatReply
deriving DecidableEq

/-- What `changeScreen` does: the final value of `screenId`, the element it un-hides (`none`
when no element has that id), and the pre-load steps it runs, in order. -/
structure ScreenChange where
  screenId : String
  shown : Option String
  preloads : List Preload

/-- The array `authScreens` of line 364. -/
def authScreens : List String :=
  ["login-screen", "signup-screen", "forgot-password-screen"]

/-- The function `changeScreen`, lines 363-392. `userId` is the global (`none` for `null`;
`!userId` is the truthiness of a string that may be absent, `envTruthy`) and `hasElement`
says which ids exist in the document. -/
def changeScreen (userId : Option String) (hasElement : String → Bool) (requested : String) :
    ScreenChange :=
  let screenId :=
    if !envTruthy userId && !authScreens.contains requested then "login-screen" else requested
  { screenId := screenId,
    shown := if hasElement screenId then some screenId else none,
    preloads :=
      (if screenId = "care-plan" then [Preload.carePlanDefaults] else [])
      ++ (if screenId = "dashboard" then [Preload.userProfile] else [])
      ++ (if screenId = "profile-setup" then [Preload.userProfile] else [])
      ++ (if screenId = "peer-chat" then [Preload.clearChatReply] else []) }

/-! ## Concrete inputs used in the examples -/

/-- An environment in which only `GEMINI_API_KEY` is set, to `SECRET`. -/
def envWithKey : Env := fun name => if name = "GEMINI_API_KEY" then some "SECRET" else none

/-- An environment with all seven provider variables set. -/
def envWithConfig : Env := fun name =>
  if name = "FB_API_KEY" then some "k"
  else if name = "FB_AUTH_DOMAIN" then some "d"
  else if name = "FB_PROJECT_ID" then some "p"
  else if name = "FB_STORAGE_BUCKET" then some "b"
  else if name = "FB_MESSAGING_SENDER_ID" then some "m"
  else if name = "FB_APP_ID" then some "a"
  else if name = "FB_MEASUREMENT_ID" then some "g"
  else none

/-- The request body of the example scenario of the specification. -/
def exampleBody : Json :=
  Json.obj [("apiUrl", Json.str "https://example/generate"),
    ("payload", Json.obj [("contents", Json.arr [])])]

/-- The upstream answer of the example scenario of the specification. -/
def exampleAnswer : Json :=
  Json.obj [("candidates", Json.arr [Json.obj [("content",
    Json.obj [("parts", Json.arr [Json.obj [("text", Json.str "hi")]])])]])]

/-- An upstream that answers 404 with a page quoting the URL that was requested. -/
def urlQuotingUpstream : Outbound → AxiosOutcome :=
  fun call => .rejectedWithResponse 404 (Json.str ("The requested URL " ++ call.url ++ " was not found"))

/-- The status texts of the codes used in the examples. -/
def exampleReason : Nat → String := fun code =>
  if code = 200 then "OK"
  else if code = 400 then "Bad Request"
  else if code = 404 then "Not Found"
  else if code = 413 then "Payload Too Large"
  else if code = 429 then "Too Many Requests"
  else "Internal Server Error"

/-- The answer of the AI whose first candidate carries the text `text`. -/
def aiAnswer (text : String) : Json :=
  Json.obj [("candidates", Json.arr [Json.obj [("content", partsOf (Json.str text))]])]

/-- A `fetch` that always resolves with the given response and leaves the world alone. -/
def constFetch (response : FetchResponse) : String → Unit → Except ClientError FetchResponse × Unit :=
  fun _ w => (.ok response, w)

/-- A request body whose `apiUrl` is the object with the single key `toString`. -/
def unprintableBody : Json :=
  Json.obj [("apiUrl", Json.obj [("toString", Json.num 0)]),
    ("payload", Json.obj [("contents", Json.arr [])])]

/-- A `JSON.parse` known on one text only: it reads `true`. -/
def trueOnlyParse : String → Option Json := fun text =>
  if text = "true" then some (Json.bool true) else none

/-- A `JSON.parse` known on one text only: it reads the object with the single field `mood`. -/
def moodOnlyParse : String → Option Json := fun text =>
  if text = "\x7b\"mood\":\"Tired\"\x7d" then some (Json.obj [("mood", Json.str "Tired")])
  else none

/-! ## Auxiliary facts -/

theorem envTruthy_some_iff (s : String) : envTruthy (some s) = true ↔ s ≠ "" := by
  simp [envTruthy]

theorem envTruthy_eq_false_iff (v : Option String) :
    envTruthy v = false ↔ v = none ∨ v = some "" := by
  cases v with
  | none => simp [envTruthy]
  | some s => simp [envTruthy]

/-- The outbound call the proxy makes for a request with the given `apiUrl` and `payload`,
when `apiUrl` has the string form `u`. -/
theorem proxyHandler_valid (env : Env) (axiosPost : Outbound → AxiosOutcome) (reqBody : Json)
    (K : String) (apiUrl payload : Json) (u : String)
    (hK : env "GEMINI_API_KEY" = some K) (hKne : K ≠ "")
    (hu : reqBody.getProp "apiUrl" = some apiUrl) (hut : apiUrl.truthy = true)
    (hs : apiUrl.toJsString = some u)
    (hp : reqBody.getProp "payload" = some payload) (hpt : payload.truthy = true) :
    proxyHandler env axiosPost reqBody =
      match axiosPost { method := "POST", url := u ++ "?key=" ++ K,
                        data := payload, headers := [("Content-Type", "application/json")] } with
      | .resolved data =>
        ({ status := 200, body := data },
          [{ method := "POST", url := u ++ "?key=" ++ K,
             data := payload, headers := [("Content-Type", "application/json")] }])
      | .rejectedWithResponse status data =>
        ({ status := status, body := upstreamErrorBody data },
          [{ method := "POST", url := u ++ "?key=" ++ K,
             data := payload, headers := [("Content-Type", "application/json")] }])
      | .rejectedNoResponse message =>
        ({ status := 500, body := upstreamErrorBody (Json.str message) },
          [{ method := "POST", url := u ++ "?key=" ++ K,
             data := payload, headers := [("Content-Type", "application/json")] }]) := by
  simp [proxyHandler, hK, hKne, hu, hp, hut, hpt, hs, envTruthy]

/-- The list of outbound calls of a valid request: exactly the one call. -/
theorem proxyHandler_valid_calls (env : Env) (axiosPost : Outbound → AxiosOutcome)
    (reqBody : Json) (K : String) (apiUrl payload : Json) (u : String)
    (hK : env "GEMINI_API_KEY" = some K) (hKne : K ≠ "")
    (hu : reqBody.getProp "apiUrl" = some apiUrl) (hut : apiUrl.truthy = true)
    (hs : apiUrl.toJsString = some u)
    (hp : reqBody.getProp "payload" = some payload) (hpt : payload.truthy = true) :
    (proxyHandler env axiosPost reqBody).2 =
      [{ method := "POST", url := u ++ "?key=" ++ K, data := payload,
         headers := [("Content-Type", "application/json")] }] := by
  rw [proxyHandler_valid env axiosPost reqBody K apiUrl payload u hK hKne hu hut hs hp hpt]
  split <;> rfl

/-- A request whose truthy `apiUrl` cannot be converted to a string is answered 500 with the
message of the `TypeError` and makes no outbound call. -/
theorem proxyHandler_unprintable (env : Env) (axiosPost : Outbound → AxiosOutcome)
    (reqBody : Json) (K : String) (apiUrl payload : Json)
    (hK : env "GEMINI_API_KEY" = some K) (hKne : K ≠ "")
    (hu : reqBody.getProp "apiUrl" = some apiUrl) (hut : apiUrl.truthy = true)
    (hs : apiUrl.toJsString = none)
    (hp : reqBody.getProp "payload" = some payload) (hpt : payload.truthy = true) :
    proxyHandler env axiosPost reqBody
      = ({ status := 500, body := upstreamErrorBody (Json.str conversionErrorMessage) }, []) := by
  simp [proxyHandler, hK, hKne, hu, hp, hut, hpt, hs, envTruthy]

/-- Whichever way `callGemini` ends, the world is the one its single `fetch` call left. -/
theorem callGemini_world {W : Type}
    (fetch : FetchRequest → W → Except ClientError FetchResponse × W)
    (modelUrl : String) (payload : Json) (w : W) :
    (callGemini fetch modelUrl payload w).2 = (fetch (callGeminiRequest modelUrl payload) w).2 := by
  unfold callGemini
  split
  · next e w1 h => rw [h]
  · next response w1 h =>
    rw [h]
    split
    · split
      · rfl
      · rfl
      · dsimp only
        split <;> rfl
    · split <;> rfl

/-- With the secret configured, a request whose fields are truthy but whose `apiUrl` has no
string form is answered 500 with the message of the `TypeError` and makes no outbound call. -/
theorem proxyHandler_no_string_form (env : Env) (axiosPost : Outbound → AxiosOutcome)
    (reqBody : Json) (K : String)
    (hK : env "GEMINI_API_KEY" = some K) (hKne : K ≠ "")
    (hu : truthy (reqBody.getProp "apiUrl") = true)
    (hp : truthy (reqBody.getProp "payload") = true)
    (hs : hasStringForm (reqBody.getProp "apiUrl") = false) :
    proxyHandler env axiosPost reqBody
      = ({ status := 500, body := upstreamErrorBody (Json.str conversionErrorMessage) }, []) := by
  cases hau : reqBody.getProp "apiUrl" with
  | none => simp [hau, truthy] at hu
  | some apiUrl =>
    cases hpl : reqBody.getProp "payload" with
    | none => simp [hpl, truthy] at hp
    | some payload =>
      rw [hau] at hu hs
      rw [hpl] at hp
      cases hc : apiUrl.toJsString with
      | some u => simp [hasStringForm, hc] at hs
      | none =>
        exact proxyHandler_unprintable env axiosPost reqBody K apiUrl payload hK hKne hau hu hc
          hpl hp

/-- A request that does not get as far as the call of line 73 makes no outbound call. -/
theorem proxyHandler_rejected (env : Env) (axiosPost : Outbound → AxiosOutcome) (reqBody : Json)
    (h : ¬ (envTruthy (env "GEMINI_API_KEY") = true ∧ truthy (reqBody.getProp "apiUrl") = true
      ∧ truthy (reqBody.getProp "payload") = true
      ∧ hasStringForm (reqBody.getProp "apiUrl") = true)) :
    (proxyHandler env axiosPost reqBody).2 = [] := by
  cases hK : env "GEMINI_API_KEY" with
  | none => simp [proxyHandler, hK]
  | some K =>
    by_cases hKe : K = ""
    · simp [proxyHandler, hK, hKe, envTruthy]
    · cases hu : reqBody.getProp "apiUrl" with
      | none => simp [proxyHandler, hK, hKe, envTruthy, hu]
      | some apiUrl =>
        cases hp : reqBody.getProp "payload" with
        | none => simp [proxyHandler, hK, hKe, envTruthy, hu, hp]
        | some payload =>
          by_cases hut : apiUrl.truthy = true
          · by_cases hpt : payload.truthy = true
            · cases hs : apiUrl.toJsString with
              | none =>
                rw [proxyHandler_unprintable env axiosPost reqBody K apiUrl payload hK hKe hu hut
                  hs hp hpt]
              | some u =>
                exact absurd ⟨by simp [hK, envTruthy, hKe], by simp [hu, truthy, hut],
                  by simp [hp, truthy, hpt], by simp [hu, hasStringForm, hs]⟩ h
            · simp [proxyHandler, hK, hKe, envTruthy, hu, hp, hut, hpt]
          · simp [proxyHandler, hK, hKe, envTruthy, hu, hp, hut]

/-- A request that passes the checks of the proxy and whose `apiUrl` has a string form makes
exactly one outbound call. -/
theorem proxyHandler_accepted (env : Env) (axiosPost : Outbound → AxiosOutcome) (reqBody : Json)
    (h : envTruthy (env "GEMINI_API_KEY") = true ∧ truthy (reqBody.getProp "apiUrl") = true
      ∧ truthy (reqBody.getProp "payload") = true
      ∧ hasStringForm (reqBody.getProp "apiUrl") = true) :
    ∃ call, (proxyHandler env axiosPost reqBody).2 = [call] := by
  obtain ⟨h1, h2, h3, h4⟩ := h
  cases hK : env "GEMINI_API_KEY" with
  | none => simp [hK, envTruthy] at h1
  | some K =>
    cases hu : reqBody.getProp "apiUrl" with
    | none => simp [hu, truthy] at h2
    | some apiUrl =>
      cases hp : reqBody.getProp "payload" with
      | none => simp [hp, truthy] at h3
      | some payload =>
        rw [hK] at h1
        rw [hu] at h2 h4
        rw [hp] at h3
        cases hs : apiUrl.toJsString with
        | none => simp [hasStringForm, hs] at h4
        | some u =>
          exact ⟨_, proxyHandler_valid_calls env axiosPost reqBody K apiUrl payload u hK
            ((envTruthy_some_iff K).mp h1) hu h2 hs hp h3⟩

/-- With the secret configured, a request whose `apiUrl` or `payload` is falsy is answered
400 with the fixed envelope and makes no outbound call. -/
theorem proxyHandler_falsy_fields (env : Env) (axiosPost : Outbound → AxiosOutcome)
    (reqBody : Json) (K : String)
    (hK : env "GEMINI_API_KEY" = some K) (hKne : K ≠ "")
    (h : ¬ (truthy (reqBody.getProp "apiUrl") = true ∧ truthy (reqBody.getProp "payload") = true)) :
    proxyHandler env axiosPost reqBody = ({ status := 400, body := missingFieldsBody }, []) := by
  cases hu : reqBody.getProp "apiUrl" with
  | none => simp [proxyHandler, hK, hKne, envTruthy, hu]
  | some apiUrl =>
    cases hp : reqBody.getProp "payload" with
    | none => simp [proxyHandler, hK, hKne, envTruthy, hu, hp]
    | some payload =>
      by_cases hut : apiUrl.truthy = true
      · by_cases hpt : payload.truthy = true
        · exact absurd ⟨by simp [hu, truthy, hut], by simp [hp, truthy, hpt]⟩ h
        · simp [proxyHandler, hK, hKne, envTruthy, hu, hp, hut, hpt]
      · simp [proxyHandler, hK, hKne, envTruthy, hu, hp, hut]

theorem splitAtFirst_append (c : Char) (a rest : List Char) (h : c ∉ a) :
    splitAtFirst c (a ++ c :: rest) = (a, some rest) := by
  induction a with
  | nil => simp [splitAtFirst]
  | cons x xs ih =>
    have hx : x ≠ c := fun e => h (by simp [e])
    have hxs : c ∉ xs := fun e => h (by simp [e])
    simp [splitAtFirst, hx, ih hxs]

theorem splitAll_of_not_mem (c : Char) (l : List Char) (h : c ∉ l) : splitAll c l = [l] := by
  induction l with
  | nil => rfl
  | cons x xs ih =>
    have hx : x ≠ c := fun e => h (by simp [e])
    have hxs : c ∉ xs := fun e => h (by simp [e])
    simp [splitAll, hx, ih hxs]

theorem splitAtFirst_of_not_mem (c : Char) (l : List Char) (h : c ∉ l) :
    splitAtFirst c l = (l, none) := by
  induction l with
  | nil => rfl
  | cons x xs ih =>
    have hx : x ≠ c := fun e => h (by simp [e])
    have hxs : c ∉ xs := fun e => h (by simp [e])
    simp [splitAtFirst, hx, ih hxs]

/-- The standard reading of `u ++ "?key=" ++ K` when `u` has no `?` and no `#`, and `K` has no
`&` and no `#`. -/
theorem urlParts_key (u K : String) (hq : '?' ∉ u.toList) (hf : '#' ∉ u.toList)
    (ha : '&' ∉ K.toList) (hg : '#' ∉ K.toList) :
    urlParts (u ++ "?key=" ++ K) = { path := u, params := [("key", K)], fragment := none } := by
  have hl : (u ++ "?key=" ++ K).toList = u.toList ++ '?' :: ('k' :: 'e' :: 'y' :: '=' :: K.toList) := by
    simp [String.toList, String.data_append]
  have hand : '&' ∉ ('k' :: 'e' :: 'y' :: '=' :: K.toList) := by
    simp only [List.mem_cons, not_or]
    exact ⟨by decide, by decide, by decide, by decide, ha⟩
  have hfrag : '#' ∉ u.toList ++ '?' :: ('k' :: 'e' :: 'y' :: '=' :: K.toList) := by
    simp only [List.mem_append, List.mem_cons, not_or]
    exact ⟨hf, by decide, by decide, by decide, by decide, by decide, hg⟩
  have hkv : queryParam ('k' :: 'e' :: 'y' :: '=' :: K.toList) = ("key", K) := by
    simp [queryParam, splitAtFirst]
  unfold urlParts
  rw [hl, splitAtFirst_of_not_mem '#' _ hfrag]
  dsimp only
  rw [splitAtFirst_append '?' _ _ hq]
  dsimp only
  rw [splitAll_of_not_mem '&' _ hand]
  simp only [List.filter_cons, List.filter_nil, List.isEmpty_cons, Bool.not_false, if_true,
    List.map_cons, List.map_nil, hkv, Option.map_none']
  rfl

theorem startsWith_append (m r : List Char) : startsWith m (m ++ r) = true := by
  induction m with
  | nil => cases r <;> rfl
  | cons a as ih => simp [startsWith, ih]

/-- Trimming at the end never reaches into the journal marker at the start of a text. -/
theorem rdropWhile_marker (r : List Char) :
    ∃ r1, List.rdropWhile isJsWhitespace ("[Loaded from Journal".toList ++ r)
      = "[Loaded from Journal".toList ++ r1 := by
  induction r using List.reverseRecOn with
  | nil => exact ⟨[], by decide⟩
  | append_singleton r0 x ih =>
    obtain ⟨r1, h1⟩ := ih
    rw [← List.append_assoc, List.rdropWhile_concat]
    by_cases hx : isJsWhitespace x = true
    · exact ⟨r1, by rw [if_pos hx, h1]⟩
    · exact ⟨r0 ++ [x], by rw [if_neg hx, List.append_assoc]⟩

/-- A field text that begins with the journal marker still begins with it after `trim`. -/
theorem jsTrim_keeps_marker (rest : String) :
    startsWith "[Loaded from Journal".toList (jsTrim ("[Loaded from Journal" ++ rest)).toList
      = true := by
  have hl : ("[Loaded from Journal" ++ rest).toList = "[Loaded from Journal".toList ++ rest.toList := by
    simp [String.toList, String.data_append]
  have hd : List.dropWhile isJsWhitespace ("[Loaded from Journal".toList ++ rest.toList)
      = "[Loaded from Journal".toList ++ rest.toList := by
    have hc : "[Loaded from Journal".toList = '[' :: "Loaded from Journal".toList := by decide
    rw [hc, List.cons_append, List.dropWhile_cons_of_neg (by decide)]
  obtain ⟨r1, h1⟩ := rdropWhile_marker rest.toList
  have ht : (jsTrim ("[Loaded from Journal" ++ rest)).toList
      = List.rdropWhile isJsWhitespace
          (List.dropWhile isJsWhitespace ("[Loaded from Journal" ++ rest).toList) := rfl
  rw [ht, hl, hd, h1]
  exact startsWith_append _ _

/-- The field text written by `loadCarePlanDefaults` begins with the journal marker after
`trim`. -/
theorem loaded_text_keeps_marker (dateText content : String) :
    startsWith "[Loaded from Journal".toList
      (jsTrim ("[Loaded from Journal - " ++ dateText ++ "]\n\n" ++ content)).toList = true := by
  have hs : "[Loaded from Journal - " ++ dateText ++ "]\n\n" ++ content
      = "[Loaded from Journal" ++ (" - " ++ dateText ++ "]\n\n" ++ content) := by
    have h0 : "[Loaded from Journal - " = "[Loaded from Journal" ++ " - " := by decide
    rw [h0]
    simp only [String.append_assoc]
  rw [hs]
  exact jsTrim_keeps_marker _

/-- The two ways `generateCarePlan` goes on for a logged-in user, by the query it settles
on. -/
theorem generateCarePlan_of_query (latestJournalContent field q : String)
    (hq : (if startsWith "[Loaded from Journal".toList (jsTrim field).toList then
        latestJournalContent else jsTrim field) = q) :
    generateCarePlan true latestJournalContent field
      = if jsLength q < 10 then
          .alert ("Please provide a detailed description of your current state (mood, "
            ++ "symptoms, energy).") "Warning"
        else
          .call (Json.obj
            [ ("contents", Json.arr [partsOf (Json.str ("My current state is: \"" ++ q ++ "\""))]),
              ("tools", Json.arr [Json.obj [("google_search", Json.obj [])]]),
              ("systemInstruction", partsOf (Json.str carePlanSystemPrompt)) ]) := by
  subst hq
  rfl

/-! ## The credential proxy: `POST /api/proxy` -/

/-- C1, refuted as stated: the object with the single key `toString` is a truthy `apiUrl`, yet
for it the handler makes no outbound call: building the URL throws, and the answer is 500
with the message of the `TypeError`. -/
theorem forwardRequest_unprintable_counterexample :
    truthy (unprintableBody.getProp "apiUrl") = true
      ∧ truthy (unprintableBody.getProp "payload") = true
      ∧ (proxyHandler envWithKey (fun _ => .resolved exampleAnswer) unprintableBody).2 = []
      ∧ (proxyHandler envWithKey (fun _ => .resolved exampleAnswer) unprintableBody).1.status = 500
      ∧ (proxyHandler envWithKey (fun _ => .resolved exampleAnswer) unprintableBody).1.body
        = Json.obj [("error", Json.str "Failed to fetch from Gemini API"),
            ("details", Json.str "Cannot convert object to primitive value")] := by
  refine ⟨rfl, rfl, rfl, rfl, rfl⟩

/-- C1, amended. For a request whose `apiUrl` and `payload` are both truthy and whose `apiUrl`
has a string form `u` (every string `apiUrl` is its own string form), and a configured
non-empty secret `K`, the handler makes one `axios.post` call: method POST, URL `u` followed
by `?key=` and `K` (for a string `apiUrl`, that string itself followed by `?key=` and `K`),
body the received `payload` unchanged, and the single header
`Content-Type: application/json`. -/
theorem forwardRequest_outbound_call (env : Env) (axiosPost : Outbound → AxiosOutcome)
    (reqBody : Json) (K : String) (apiUrl payload : Json) (u : String)
    (hK : env "GEMINI_API_KEY" = some K) (hKne : K ≠ "")
    (hu : reqBody.getProp "apiUrl" = some apiUrl) (hut : apiUrl.truthy = true)
    (hs : apiUrl.toJsString = some u)
    (hp : reqBody.getProp "payload" = some payload) (hpt : payload.truthy = true) :
    (proxyHandler env axiosPost reqBody).2 =
        [{ method := "POST", url := u ++ "?key=" ++ K, data := payload,
           headers := [("Content-Type", "application/json")] }]
      ∧ (∀ t : String, apiUrl = Json.str t →
          (proxyHandler env axiosPost reqBody).2.map Outbound.url = [t ++ "?key=" ++ K])
      ∧ ∀ t : String, (Json.str t).toJsString = some t := by
  have h2 := proxyHandler_valid_calls env axiosPost reqBody K apiUrl payload u hK hKne hu hut hs
    hp hpt
  refine ⟨h2, ?_, fun _ => rfl⟩
  intro t ht
  subst ht
  have hut2 : u = t := by
    have : some t = some u := hs
    exact (Option.some.inj this).symm
  rw [h2, hut2]
  rfl

/-- C1 amended, at the example request of the specification with the secret `SECRET`. -/
theorem forwardRequest_outbound_call_witness :
    (proxyHandler envWithKey (fun _ => .resolved exampleAnswer) exampleBody).2 =
        [{ method := "POST", url := "https://example/generate?key=SECRET",
           data := Json.obj [("contents", Json.arr [])],
           headers := [("Content-Type", "application/json")] }] :=
  (forwardRequest_outbound_call envWithKey (fun _ => .resolved exampleAnswer) exampleBody
    "SECRET" (Json.str "https://example/generate") (Json.obj [("contents", Json.arr [])])
    "https://example/generate" rfl (by decide) rfl rfl rfl rfl rfl).1

/-- C2. For a valid request and a configured secret, when the `axios.post` call resolves with
body `d`, the proxy answers status 200 with body `d` itself. The call is the one made for
the string form `u` of `apiUrl`. -/
theorem forwardRequest_success_passthrough (env : Env) (axiosPost : Outbound → AxiosOutcome)
    (reqBody : Json) (K : String) (apiUrl payload d : Json) (u : String)
    (hK : env "GEMINI_API_KEY" = some K) (hKne : K ≠ "")
    (hu : reqBody.getProp "apiUrl" = some apiUrl) (hut : apiUrl.truthy = true)
    (hs : apiUrl.toJsString = some u)
    (hp : reqBody.getProp "payload" = some payload) (hpt : payload.truthy = true)
    (hd : axiosPost { method := "POST", url := u ++ "?key=" ++ K,
                      data := payload, headers := [("Content-Type", "application/json")] }
          = .resolved d) :
    (proxyHandler env axiosPost reqBody).1.status = 200
      ∧ (proxyHandler env axiosPost reqBody).1.body = d := by
  rw [proxyHandler_valid env axiosPost reqBody K apiUrl payload u hK hKne hu hut hs hp hpt, hd]
  exact ⟨rfl, rfl⟩

/-- C2, at the example scenario of the specification. -/
theorem forwardRequest_success_passthrough_witness :
    (proxyHandler envWithKey (fun _ => .resolved exampleAnswer) exampleBody).1.status = 200
      ∧ (proxyHandler envWithKey (fun _ => .resolved exampleAnswer) exampleBody).1.body
          = exampleAnswer :=
  forwardRequest_success_passthrough envWithKey (fun _ => .resolved exampleAnswer) exampleBody
    "SECRET" (Json.str "https://example/generate") (Json.obj [("contents", Json.arr [])])
    exampleAnswer "https://example/generate" rfl (by decide) rfl rfl rfl rfl rfl rfl

/-- C3. When `GEMINI_API_KEY` is unset or empty, every request body is answered status 500 with
body `{error: "API key not configured on server."}` and no `axios.post` call is made. -/
theorem forwardRequest_no_secret (env : Env) (axiosPost : Outbound → AxiosOutcome)
    (reqBody : Json)
    (hK : env "GEMINI_API_KEY" = none ∨ env "GEMINI_API_KEY" = some "") :
    (proxyHandler env axiosPost reqBody).1.status = 500
      ∧ (proxyHandler env axiosPost reqBody).1.body
          = Json.obj [("error", Json.str "API key not configured on server.")]
      ∧ (proxyHandler env axiosPost reqBody).2 = [] := by
  rcases hK with hK | hK <;> simp [proxyHandler, hK, envTruthy, noKeyBody]

/-- C3, at a request that also lacks both fields, with the variable unset. -/
theorem forwardRequest_no_secret_witness :
    (proxyHandler (fun _ => none) (fun _ => .resolved exampleAnswer) (Json.obj [])).1.status = 500
      ∧ (proxyHandler (fun _ => none) (fun _ => .resolved exampleAnswer) (Json.obj [])).1.body
          = Json.obj [("error", Json.str "API key not configured on server.")]
      ∧ (proxyHandler (fun _ => none) (fun _ => .resolved exampleAnswer) (Json.obj [])).2 = [] :=
  forwardRequest_no_secret (fun _ => none) (fun _ => .resolved exampleAnswer) (Json.obj [])
    (Or.inl rfl)

/-- C4. When the secret is configured and `apiUrl` or `payload` is missing from the request
body, the answer is status 400 with body `{error: "Missing apiUrl or payload"}` and no
`axios.post` call is made. -/
theorem forwardRequest_missing_fields (env : Env) (axiosPost : Outbound → AxiosOutcome)
    (reqBody : Json) (K : String)
    (hK : env "GEMINI_API_KEY" = some K) (hKne : K ≠ "")
    (hm : reqBody.getProp "apiUrl" = none ∨ reqBody.getProp "payload" = none) :
    (proxyHandler env axiosPost reqBody).1.status = 400
      ∧ (proxyHandler env axiosPost reqBody).1.body
          = Json.obj [("error", Json.str "Missing apiUrl or payload")]
      ∧ (proxyHandler env axiosPost reqBody).2 = [] := by
  rcases hm with hm | hm
  · simp [proxyHandler, hK, hKne, hm, envTruthy, missingFieldsBody]
  · cases hu : reqBody.getProp "apiUrl" <;>
      simp [proxyHandler, hK, hKne, hm, hu, envTruthy, missingFieldsBody]

/-- C4, at a request that has `apiUrl` but no `payload`. -/
theorem forwardRequest_missing_fields_witness :
    (proxyHandler envWithKey (fun _ => .resolved exampleAnswer)
        (Json.obj [("apiUrl", Json.str "https://example/generate")])).1.status = 400
      ∧ (proxyHandler envWithKey (fun _ => .resolved exampleAnswer)
        (Json.obj [("apiUrl", Json.str "https://example/generate")])).1.body
          = Json.obj [("error", Json.str "Missing apiUrl or payload")]
      ∧ (proxyHandler envWithKey (fun _ => .resolved exampleAnswer)
        (Json.obj [("apiUrl", Json.str "https://example/generate")])).2 = [] :=
  forwardRequest_missing_fields envWithKey (fun _ => .resolved exampleAnswer)
    (Json.obj [("apiUrl", Json.str "https://example/generate")]) "SECRET" rfl (by decide)
    (Or.inr rfl)

/-- C5. For a valid request and a configured secret, when the `axios.post` call fails the
answer body is `{error: "Failed to fetch from Gemini API", details: x}`, whose `error` text
is not empty: a failure carrying an upstream response with status `s` and body `d` gives
status `s` and `x = d`; a failure carrying no response with message `m` gives status 500 and
`x = m`. The call is the one made for the string form `u` of `apiUrl`. -/
theorem forwardRequest_error_relay (env : Env) (axiosPost : Outbound → AxiosOutcome)
    (reqBody : Json) (K : String) (apiUrl payload : Json) (u : String)
    (hK : env "GEMINI_API_KEY" = some K) (hKne : K ≠ "")
    (hu : reqBody.getProp "apiUrl" = some apiUrl) (hut : apiUrl.truthy = true)
    (hs : apiUrl.toJsString = some u)
    (hp : reqBody.getProp "payload" = some payload) (hpt : payload.truthy = true) :
    (∀ (s : Nat) (d : Json),
        axiosPost { method := "POST", url := u ++ "?key=" ++ K,
                    data := payload, headers := [("Content-Type", "application/json")] }
          = .rejectedWithResponse s d →
        (proxyHandler env axiosPost reqBody).1.status = s
          ∧ (proxyHandler env axiosPost reqBody).1.body
              = Json.obj [("error", Json.str "Failed to fetch from Gemini API"),
                          ("details", d)])
      ∧ (∀ m : String,
        axiosPost { method := "POST", url := u ++ "?key=" ++ K,
                    data := payload, headers := [("Content-Type", "application/json")] }
          = .rejectedNoResponse m →
        (proxyHandler env axiosPost reqBody).1.status = 500
          ∧ (proxyHandler env axiosPost reqBody).1.body
              = Json.obj [("error", Json.str "Failed to fetch from Gemini API"),
                          ("details", Json.str m)])
      ∧ "Failed to fetch from Gemini API" ≠ "" := by
  have h := proxyHandler_valid env axiosPost reqBody K apiUrl payload u hK hKne hu hut hs hp hpt
  refine ⟨?_, ?_, by decide⟩
  · intro s d hd
    rw [h, hd]
    exact ⟨rfl, rfl⟩
  · intro m hm
    rw [h, hm]
    exact ⟨rfl, rfl⟩

/-- C5, at an upstream that answers 429 with a body. -/
theorem forwardRequest_error_relay_witness :
    (proxyHandler envWithKey (fun _ => .rejectedWithResponse 429 (Json.str "quota")) exampleBody).1.status
        = 429
      ∧ (proxyHandler envWithKey (fun _ => .rejectedWithResponse 429 (Json.str "quota"))
          exampleBody).1.body
        = Json.obj [("error", Json.str "Failed to fetch from Gemini API"),
                    ("details", Json.str "quota")] :=
  (forwardRequest_error_relay envWithKey (fun _ => .rejectedWithResponse 429 (Json.str "quota"))
    exampleBody "SECRET" (Json.str "https://example/generate")
    (Json.obj [("contents", Json.arr [])]) "https://example/generate" rfl (by decide) rfl rfl rfl
    rfl rfl).1 429 (Json.str "quota") rfl

/-! ## The credential proxy: `GET /api/config` -/

/-- C6. `GET /api/config` answers status 500 with body exactly
`{error: "Server configuration error."}` if and only if one of the seven provider variables
is unset or empty, and it answers status 200 if and only if none is; the 500 body has none of
the seven provider fields. -/
theorem getClientConfig_status (env : Env) :
    (((getConfig env).status = 500
        ∧ (getConfig env).body = Json.obj [("error", Json.str "Server configuration error.")])
      ↔ ∃ v ∈ providerVars, env v = none ∨ env v = some "")
    ∧ ((getConfig env).status = 200
      ↔ ¬ ∃ v ∈ providerVars, env v = none ∨ env v = some "")
    ∧ ∀ f ∈ providerFields,
        (Json.obj [("error", Json.str "Server configuration error.")]).getProp f = none := by
  have hany : (((firebaseConfig env).map Prod.snd).any (fun key => !envTruthy key)) = true
      ↔ ∃ v ∈ providerVars, env v = none ∨ env v = some "" := by
    simp [firebaseConfig, providerVars, envTruthy_eq_false_iff]
  refine ⟨?_, ?_, ?_⟩
  · by_cases h : (((firebaseConfig env).map Prod.snd).any (fun key => !envTruthy key)) = true
    · have h2 := hany.mp h
      simp only [getConfig, h, if_true, configErrorBody, true_and]
      simpa using h2
    · have h2 : ¬ ∃ v ∈ providerVars, env v = none ∨ env v = some "" := fun hx => h (hany.mpr hx)
      simp only [getConfig, h]
      constructor
      · intro hc
        simp at hc
      · intro hx
        exact absurd hx h2
  · by_cases h : (((firebaseConfig env).map Prod.snd).any (fun key => !envTruthy key)) = true
    · have h2 := hany.mp h
      simp only [getConfig, h, if_true]
      constructor
      · intro hc
        simp at hc
      · intro hx
        exact absurd h2 hx
    · have h2 : ¬ ∃ v ∈ providerVars, env v = none ∨ env v = some "" := fun hx => h (hany.mpr hx)
      simp only [getConfig, h]
      simp [h2]
  · intro f hf
    simp only [providerFields, List.mem_cons, List.mem_singleton, List.not_mem_nil, or_false] at hf
    rcases hf with rfl | rfl | rfl | rfl | rfl | rfl | rfl <;> rfl

/-- C7. When all seven provider variables are set and non-empty, `GET /api/config` answers
status 200 with the object of exactly the seven fields `apiKey`, `authDomain`, `projectId`,
`storageBucket`, `messagingSenderId`, `appId`, `measurementId`, each holding the value of its
`FB_*` variable. -/
theorem getClientConfig_success_body (env : Env) (k d p b m a g : String)
    (hk : env "FB_API_KEY" = some k) (hk0 : k ≠ "")
    (hd : env "FB_AUTH_DOMAIN" = some d) (hd0 : d ≠ "")
    (hp : env "FB_PROJECT_ID" = some p) (hp0 : p ≠ "")
    (hb : env "FB_STORAGE_BUCKET" = some b) (hb0 : b ≠ "")
    (hm : env "FB_MESSAGING_SENDER_ID" = some m) (hm0 : m ≠ "")
    (ha : env "FB_APP_ID" = some a) (ha0 : a ≠ "")
    (hg : env "FB_MEASUREMENT_ID" = some g) (hg0 : g ≠ "") :
    (getConfig env).status = 200
      ∧ (getConfig env).body =
          Json.obj [ ("apiKey", Json.str k), ("authDomain", Json.str d),
                     ("projectId", Json.str p), ("storageBucket", Json.str b),
                     ("messagingSenderId", Json.str m), ("appId", Json.str a),
                     ("measurementId", Json.str g) ] := by
  simp [getConfig, firebaseConfig, jsonOfFields, envTruthy, hk, hd, hp, hb, hm, ha, hg,
    hk0, hd0, hp0, hb0, hm0, ha0, hg0]

/-- C7, at an environment with all seven variables set. -/
theorem getClientConfig_success_body_witness :
    (getConfig envWithConfig).status = 200
      ∧ (getConfig envWithConfig).body =
          Json.obj [ ("apiKey", Json.str "k"), ("authDomain", Json.str "d"),
                     ("projectId", Json.str "p"), ("storageBucket", Json.str "b"),
                     ("messagingSenderId", Json.str "m"), ("appId", Json.str "a"),
                     ("measurementId", Json.str "g") ] :=
  getClientConfig_success_body envWithConfig "k" "d" "p" "b" "m" "a" "g"
    rfl (by decide) rfl (by decide) rfl (by decide) rfl (by decide) rfl (by decide)
    rfl (by decide) rfl (by decide)

/-! ## Confinement of the secret -/

/-- C8, refuted as stated: with the secret `SECRET` configured and an upstream whose 404 page
quotes the requested URL, the body the proxy returns to the client mentions both the secret
and the secret-bearing outbound URL. -/
theorem secret_confinement_counterexample :
    (proxyHandler envWithKey urlQuotingUpstream exampleBody).2.map Outbound.url
        = ["https://example/generate?key=SECRET"]
      ∧ (proxyHandler envWithKey urlQuotingUpstream exampleBody).1.body
        = Json.obj [("error", Json.str "Failed to fetch from Gemini API"),
            ("details",
              Json.str "The requested URL https://example/generate?key=SECRET was not found")]
      ∧ (proxyHandler envWithKey urlQuotingUpstream exampleBody).1.body.mentions "SECRET" = true
      ∧ (proxyHandler envWithKey urlQuotingUpstream exampleBody).1.body.mentions
          "https://example/generate?key=SECRET" = true := by
  refine ⟨rfl, rfl, ?_, ?_⟩ <;> decide

/-- C8, amended. For every environment, request and upstream behaviour, a text `s` that occurs
in none of the fixed texts of the handler nor in the message of the `TypeError` of line 70
(so in particular the secret, or the outbound URL) is mentioned by the body returned to the
client only if the outcome of an `axios.post` call the handler made mentions it: the handler
itself never writes it there. -/
theorem secret_only_from_upstream (env : Env) (axiosPost : Outbound → AxiosOutcome)
    (reqBody : Json) (s : String)
    (hfix : ∀ t ∈ proxyFixedTexts, occursIn s t = false)
    (hm : (proxyHandler env axiosPost reqBody).1.body.mentions s = true) :
    ∃ call ∈ (proxyHandler env axiosPost reqBody).2, (axiosPost call).mentions s = true := by
  have h1 : occursIn s "error" = false := hfix _ (by simp [proxyFixedTexts])
  have h2 : occursIn s "details" = false := hfix _ (by simp [proxyFixedTexts])
  have h3 : occursIn s "API key not configured on server." = false :=
    hfix _ (by simp [proxyFixedTexts])
  have h4 : occursIn s "Missing apiUrl or payload" = false := hfix _ (by simp [proxyFixedTexts])
  have h5 : occursIn s "Failed to fetch from Gemini API" = false :=
    hfix _ (by simp [proxyFixedTexts])
  have h6 : occursIn s conversionErrorMessage = false := hfix _ (by simp [proxyFixedTexts])
  have hno : noKeyBody.mentions s = false := by
    simp [noKeyBody, Json.mentions, Json.mentionsEntry, h1, h3]
  have hmiss : missingFieldsBody.mentions s = false := by
    simp [missingFieldsBody, Json.mentions, Json.mentionsEntry, h1, h4]
  have hup : ∀ d : Json, (upstreamErrorBody d).mentions s = d.mentions s := by
    intro d
    simp [upstreamErrorBody, Json.mentions, Json.mentionsEntry, h1, h2, h5]
  cases hK : env "GEMINI_API_KEY" with
  | none => simp [proxyHandler, hK, hno] at hm
  | some K =>
    by_cases hKe : K = ""
    · simp [proxyHandler, hK, hKe, envTruthy, hno] at hm
    · by_cases hv : truthy (reqBody.getProp "apiUrl") = true
          ∧ truthy (reqBody.getProp "payload") = true
      · obtain ⟨hu0, hp0⟩ := hv
        cases hu : reqBody.getProp "apiUrl" with
        | none => simp [hu, truthy] at hu0
        | some apiUrl =>
          cases hp : reqBody.getProp "payload" with
          | none => simp [hp, truthy] at hp0
          | some payload =>
            rw [hu] at hu0
            rw [hp] at hp0
            cases hs : apiUrl.toJsString with
            | none =>
              rw [proxyHandler_unprintable env axiosPost reqBody K apiUrl payload hK hKe hu hu0
                hs hp hp0] at hm
              have hm2 : (upstreamErrorBody (Json.str conversionErrorMessage)).mentions s = true :=
                hm
              rw [hup] at hm2
              have hm3 : occursIn s conversionErrorMessage = true := hm2
              rw [h6] at hm3
              exact absurd hm3 (by decide)
            | some u =>
              have hvd := proxyHandler_valid env axiosPost reqBody K apiUrl payload u hK hKe hu
                hu0 hs hp hp0
              have hc := proxyHandler_valid_calls env axiosPost reqBody K apiUrl payload u hK hKe
                hu hu0 hs hp hp0
              rw [hvd] at hm
              rw [hc]
              refine ⟨_, List.mem_singleton.mpr rfl, ?_⟩
              obtain ⟨outcome, hd⟩ : ∃ o, axiosPost
                  { method := "POST", url := u ++ "?key=" ++ K, data := payload,
                    headers := [("Content-Type", "application/json")] } = o := ⟨_, rfl⟩
              rw [hd] at hm ⊢
              cases outcome with
              | resolved data => exact hm
              | rejectedWithResponse status data =>
                have hm2 : (upstreamErrorBody data).mentions s = true := hm
                rw [hup] at hm2
                exact hm2
              | rejectedNoResponse message =>
                have hm2 : (upstreamErrorBody (Json.str message)).mentions s = true := hm
                rw [hup] at hm2
                exact hm2
      · rw [proxyHandler_falsy_fields env axiosPost reqBody K hK hKe hv] at hm
        have hm2 : missingFieldsBody.mentions s = true := hm
        rw [hmiss] at hm2
        exact absurd hm2 (by decide)

/-- C8 amended, at the secret `SECRET` and the upstream that quotes the URL. -/
theorem secret_only_from_upstream_witness :
    ∃ call ∈ (proxyHandler envWithKey urlQuotingUpstream exampleBody).2,
      (urlQuotingUpstream call).mentions "SECRET" = true :=
  secret_only_from_upstream envWithKey urlQuotingUpstream exampleBody "SECRET"
    (by decide) (by decide)

/-! ## The proxy client: `callGemini` -/

/-- C9, refuted as stated: with the secret `SECRET` configured and no earlier outbound call,
`callGemini` through the proxy reaches the upstream with no POST at all when the payload is
the JSON-serializable value `null`, when `modelUrl` is the empty string, and when the JSON
text of the request is 200000 bytes long; and the string payload `true`, which is JSON text,
is read by the upstream as the value `true`, not as that string. -/
theorem round_trip_counterexample :
    (callGemini (server envWithKey (fun _ => .resolved exampleAnswer) exampleReason (fun _ => 100))
        "https://example/generate" Json.null []).2 = []
      ∧ (callGemini (server envWithKey (fun _ => .resolved exampleAnswer) exampleReason (fun _ => 100))
        "" (Json.obj [("contents", Json.arr [])]) []).2 = []
      ∧ (callGemini
          (server envWithKey (fun _ => .resolved exampleAnswer) exampleReason (fun _ => 200000))
        "https://example/generate" (Json.obj [("contents", Json.arr [])]) []).2 = []
      ∧ (callGemini (server envWithKey (fun _ => .resolved exampleAnswer) exampleReason (fun _ => 100))
        "https://example/generate" (Json.str "true") []).2.map
          (fun call => receivedBody trueOnlyParse call.data) = [Json.bool true] := by
  refine ⟨rfl, rfl, rfl, rfl⟩

/-- C9, amended. With a non-empty secret `K` configured, for every non-empty `modelUrl` and
every truthy payload (any JSON value other than `null`, `false`, `0` and `""`) that is not a
string holding JSON text, when the JSON text of the request `{apiUrl, payload}` is not
longer than 100kb, `callGemini(modelUrl, payload)` through the proxy adds exactly one
outbound call to those made before: a POST whose URL is `modelUrl` followed by `?key=` and
`K` and whose body the upstream reads as `payload` unchanged. -/
theorem round_trip_truthy (env : Env) (axiosPost : Outbound → AxiosOutcome)
    (reason : Nat → String) (bodyBytes : Json → Nat) (jsonParse : String → Option Json)
    (K modelUrl : String) (payload : Json) (log : List Outbound)
    (hK : env "GEMINI_API_KEY" = some K) (hKne : K ≠ "")
    (hurl : modelUrl ≠ "") (hpt : payload.truthy = true)
    (hsize : bodyBytes (Json.obj [("apiUrl", Json.str modelUrl), ("payload", payload)]) ≤ 102400)
    (htext : ∀ text, payload = Json.str text → jsonParse text = none) :
    (callGemini (server env axiosPost reason bodyBytes) modelUrl payload log).2 =
        log ++ [{ method := "POST", url := modelUrl ++ "?key=" ++ K, data := payload,
                  headers := [("Content-Type", "application/json")] }]
      ∧ ((callGemini (server env axiosPost reason bodyBytes) modelUrl payload log).2.drop
          log.length).map (fun call => receivedBody jsonParse call.data) = [payload] := by
  have hc := proxyHandler_valid_calls env axiosPost
    (Json.obj [("apiUrl", Json.str modelUrl), ("payload", payload)]) K (Json.str modelUrl)
    payload modelUrl hK hKne (by simp [Json.getProp, Json.lookupLast])
    (by simp [Json.truthy, hurl]) rfl (by simp [Json.getProp, Json.lookupLast]) hpt
  have hlog : (callGemini (server env axiosPost reason bodyBytes) modelUrl payload log).2 =
      log ++ [{ method := "POST", url := modelUrl ++ "?key=" ++ K, data := payload,
                headers := [("Content-Type", "application/json")] }] := by
    rw [callGemini_world]
    have hsz : ¬ 102400 < bodyBytes (Json.obj [("apiUrl", Json.str modelUrl), ("payload", payload)]) :=
      Nat.not_lt.mpr hsize
    simp [server, callGeminiRequest, hc, hsz]
  have hrecv : receivedBody jsonParse payload = payload := by
    cases payload with
    | str text => simp [receivedBody, htext text rfl]
    | _ => rfl
  refine ⟨hlog, ?_⟩
  rw [hlog, List.drop_left]
  simp [hrecv]

/-- C9 amended, at the example request of the specification. -/
theorem round_trip_truthy_witness :
    (callGemini (server envWithKey (fun _ => .resolved exampleAnswer) exampleReason (fun _ => 100))
        "https://example/generate" (Json.obj [("contents", Json.arr [])]) []).2 =
      [] ++ [{ method := "POST", url := "https://example/generate" ++ "?key=" ++ "SECRET",
               data := Json.obj [("contents", Json.arr [])],
               headers := [("Content-Type", "application/json")] }] :=
  (round_trip_truthy envWithKey (fun _ => .resolved exampleAnswer) exampleReason (fun _ => 100)
    trueOnlyParse "SECRET" "https://example/generate" (Json.obj [("contents", Json.arr [])]) []
    rfl (by decide) (by decide) rfl (by decide) (fun _ h => nomatch h)).1

/-- C10, refuted as stated: a 413 answer whose body is not JSON makes `callGemini` fail with
the rejection of `response.json()`, not with a `Proxy error:` message; and an error envelope
whose `error` field is present with the value `0` makes it fail with the status text, not
with that field. -/
theorem callGemini_error_counterexample :
    (callGemini
        (fun _ (w : Unit) =>
          (.ok { status := 413, statusText := "Payload Too Large", json := .error "Unexpected token" }, w))
        "https://example/generate" (Json.obj [("contents", Json.arr [])]) ()).1
        = .error (.badJson "Unexpected token")
      ∧ (callGemini
        (fun _ (w : Unit) =>
          (.ok { status := 500, statusText := "Internal Server Error",
                 json := .ok (Json.obj [("error", Json.num 0)]) }, w))
        "https://example/generate" (Json.obj [("contents", Json.arr [])]) ()).1
        = .error (.thrown "Proxy error: Internal Server Error") := by
  constructor <;> rfl

/-- C10, amended. `callGemini` makes one `fetch` call, a POST to `/api/proxy` with the header
`Content-Type: application/json` and the JSON body `{apiUrl: modelUrl, payload: payload}`.
When the answer has a success status and a JSON body it returns that parsed body. When the
answer has another status and a JSON body other than `null`, it fails with the message
`Proxy error: ` followed by the string form of the body's `error` field if that field is
truthy and has a string form, and by the HTTP status text if the field is absent or falsy
(`null`, `false`, `0` or the empty string); if the field is truthy and has no string form
(an object with an own key `toString`) it fails with the `TypeError` of the conversion.
When the body of the answer is not JSON it fails with the rejection of `response.json()`. -/
theorem callGemini_contract {W : Type}
    (fetch : FetchRequest → W → Except ClientError FetchResponse × W)
    (modelUrl : String) (payload : Json) (w w1 : W) (response : FetchResponse)
    (hf : fetch { url := "/api/proxy", method := "POST",
                  headers := [("Content-Type", "application/json")],
                  body := Json.obj [("apiUrl", Json.str modelUrl), ("payload", payload)] } w
          = (.ok response, w1)) :
    (∀ (answer : FetchRequest → Except ClientError FetchResponse) (sent : List FetchRequest),
        (callGemini (recordingFetch answer) modelUrl payload sent).2 =
          sent ++ [{ url := "/api/proxy", method := "POST",
                     headers := [("Content-Type", "application/json")],
                     body := Json.obj [("apiUrl", Json.str modelUrl), ("payload", payload)] }])
      ∧ (∀ data : Json, response.ok = true → response.json = .ok data →
          callGemini fetch modelUrl payload w = (.ok data, w1))
      ∧ (∀ (errorData v : Json) (text : String), response.ok = false →
          response.json = .ok errorData → errorData ≠ Json.null →
          errorData.getProp "error" = some v → v.truthy = true → v.toJsString = some text →
          callGemini fetch modelUrl payload w
            = (.error (.thrown ("Proxy error: " ++ text)), w1))
      ∧ (∀ errorData v : Json, response.ok = false →
          response.json = .ok errorData → errorData ≠ Json.null →
          errorData.getProp "error" = some v → v.truthy = true → v.toJsString = none →
          callGemini fetch modelUrl payload w = (.error .notPrimitive, w1))
      ∧ (∀ errorData : Json, response.ok = false → response.json = .ok errorData →
          errorData ≠ Json.null → truthy (errorData.getProp "error") = false →
          callGemini fetch modelUrl payload w
            = (.error (.thrown ("Proxy error: " ++ response.statusText)), w1))
      ∧ (∀ m : String, response.json = .error m →
          callGemini fetch modelUrl payload w = (.error (.badJson m), w1)) := by
  have hf2 : fetch (callGeminiRequest modelUrl payload) w = (.ok response, w1) := hf
  have hshape : ∀ (errorData : Json) (shown : Option String), response.ok = false →
      response.json = .ok errorData → errorData ≠ Json.null →
      (match errorData.getProp "error" with
        | some v => if v.truthy then v.toJsString else some response.statusText
        | none => some response.statusText) = shown →
      callGemini fetch modelUrl payload w =
        match shown with
        | none => (.error .notPrimitive, w1)
        | some text => (.error (.thrown ("Proxy error: " ++ text)), w1) := by
    intro errorData shown hok hj hnull hshown
    subst hshown
    cases errorData with
    | null => exact absurd rfl hnull
    | _ => simp [callGemini, hf2, hok, hj]
  refine ⟨?_, ?_, ?_, ?_, ?_, ?_⟩
  · intro answer sent
    rw [callGemini_world]
    rfl
  · intro data hok hj
    simp [callGemini, hf2, hok, hj]
  · intro errorData v text hok hj hnull hv hvt hs
    rw [hshape errorData (some text) hok hj hnull (by simp [hv, hvt, hs])]
  · intro errorData v hok hj hnull hv hvt hs
    rw [hshape errorData none hok hj hnull (by simp [hv, hvt, hs])]
  · intro errorData hok hj hnull hv
    have hshown : (match errorData.getProp "error" with
        | some v => if v.truthy then v.toJsString else some response.statusText
        | none => some response.statusText) = some response.statusText := by
      cases hg : errorData.getProp "error" with
      | none => rfl
      | some v =>
        rw [hg] at hv
        have hv2 : v.truthy = false := hv
        simp [hv2]
    rw [hshape errorData (some response.statusText) hok hj hnull hshown]
  · intro m hj
    cases hok : response.ok <;> simp [callGemini, hf2, hok, hj]

/-- C10 amended, at the proxy of this repository answering 400 to a `null` payload: the
message is `Proxy error: ` followed by the text of the envelope. -/
theorem callGemini_contract_witness :
    (callGemini (server envWithKey (fun _ => .resolved exampleAnswer) exampleReason (fun _ => 100))
        "https://example/generate" Json.null []).1
      = .error (.thrown ("Proxy error: " ++ "Missing apiUrl or payload")) :=
  congrArg Prod.fst
    ((callGemini_contract
      (server envWithKey (fun _ => .resolved exampleAnswer) exampleReason (fun _ => 100))
      "https://example/generate" Json.null [] []
      { status := 400, statusText := "Bad Request", json := .ok missingFieldsBody } rfl).2.2.1
      missingFieldsBody (Json.str "Missing apiUrl or payload") "Missing apiUrl or payload" rfl rfl
      (by simp [missingFieldsBody]) rfl rfl rfl)

/-! ## The proxy client: `fetchFirebaseConfig` -/

/-- C11, refuted as stated: a response to `GET /api/config` with the success status 200 whose
body is not JSON makes `fetchFirebaseConfig` fail with the rejection of `response.json()`;
no value is returned although the status is a success status. -/
theorem fetchFirebaseConfig_counterexample :
    FetchResponse.ok { status := 200, statusText := "OK", json := .error "Unexpected token" }
        = true
      ∧ (fetchFirebaseConfig
          (constFetch { status := 200, statusText := "OK", json := .error "Unexpected token" })
          ()).result = .error (.badJson "Unexpected token") := by
  constructor <;> rfl

/-- C11, amended. `fetchFirebaseConfig` returns a value exactly when the response to
`GET /api/config` has a success status and a body that parses as JSON, and the value is that
parsed body. On every other status it fails with the error `Could not fetch Firebase config
from server.`, on a network failure it fails with the error of `fetch`, and on a success
status with a body that is not JSON it fails with the rejection of `response.json()`; in
these three cases it returns no value. -/
theorem fetchFirebaseConfig_contract {W : Type}
    (fetchUrl : String → W → Except ClientError FetchResponse × W) (w w1 : W)
    (outcome : Except ClientError FetchResponse)
    (hf : fetchUrl "/api/config" w = (outcome, w1)) :
    (∀ config : Json, (fetchFirebaseConfig fetchUrl w).result = .ok config ↔
        ∃ response, outcome = .ok response ∧ response.ok = true ∧ response.json = .ok config)
      ∧ (∀ response, outcome = .ok response → response.ok = false →
          (fetchFirebaseConfig fetchUrl w).result
            = .error (.thrown "Could not fetch Firebase config from server."))
      ∧ (∀ e, outcome = .error e → (fetchFirebaseConfig fetchUrl w).result = .error e)
      ∧ (∀ response m, outcome = .ok response → response.ok = true → response.json = .error m →
          (fetchFirebaseConfig fetchUrl w).result = .error (.badJson m)) := by
  refine ⟨?_, ?_, ?_, ?_⟩
  · intro config
    cases outcome with
    | error e => simp [fetchFirebaseConfig, hf]
    | ok response =>
      cases hok : response.ok <;> cases hj : response.json <;>
        simp [fetchFirebaseConfig, hf, hok, hj]
  · intro response ho hok
    subst ho
    simp [fetchFirebaseConfig, hf, hok]
  · intro e ho
    subst ho
    simp [fetchFirebaseConfig, hf]
  · intro response m ho hok hj
    subst ho
    simp [fetchFirebaseConfig, hf, hok, hj]

/-- C11 amended, at a 200 response carrying the configuration object of the example. -/
theorem fetchFirebaseConfig_contract_witness :
    (fetchFirebaseConfig
        (constFetch { status := 200, statusText := "OK", json := .ok (getConfig envWithConfig).body })
        ()).result = .ok (getConfig envWithConfig).body :=
  ((fetchFirebaseConfig_contract
      (constFetch { status := 200, statusText := "OK", json := .ok (getConfig envWithConfig).body })
      () () (.ok { status := 200, statusText := "OK", json := .ok (getConfig envWithConfig).body })
      rfl).1 (getConfig envWithConfig).body).mpr ⟨_, rfl, rfl, rfl⟩

/-! ## The credential proxy: outbound calls and their precondition -/

/-- C12, refuted as stated: with the secret configured and `apiUrl` and `payload` both
present and truthy, the handler makes no outbound call when `apiUrl` is the object with the
single key `toString`, because building the URL throws. -/
theorem call_count_counterexample :
    envTruthy (envWithKey "GEMINI_API_KEY") = true
      ∧ truthy (unprintableBody.getProp "apiUrl") = true
      ∧ truthy (unprintableBody.getProp "payload") = true
      ∧ (proxyHandler envWithKey (fun _ => .resolved exampleAnswer) unprintableBody).2.length = 0 := by
  refine ⟨rfl, rfl, rfl, rfl⟩

/-- C12, amended. Every invocation of the `/api/proxy` handler makes exactly one `axios.post`
call when the secret is configured, `apiUrl` and `payload` are both present (truthy) and
`apiUrl` has a string form (as every string has), whatever the outcome of that call, and
makes no call otherwise. -/
theorem forwardRequest_call_count (env : Env) (axiosPost : Outbound → AxiosOutcome)
    (reqBody : Json) :
    ((proxyHandler env axiosPost reqBody).2.length = 1 ↔
        (envTruthy (env "GEMINI_API_KEY") = true ∧ truthy (reqBody.getProp "apiUrl") = true
          ∧ truthy (reqBody.getProp "payload") = true
          ∧ hasStringForm (reqBody.getProp "apiUrl") = true))
      ∧ ((proxyHandler env axiosPost reqBody).2.length = 0 ↔
        ¬ (envTruthy (env "GEMINI_API_KEY") = true ∧ truthy (reqBody.getProp "apiUrl") = true
          ∧ truthy (reqBody.getProp "payload") = true
          ∧ hasStringForm (reqBody.getProp "apiUrl") = true))
      ∧ ∀ t : String, hasStringForm (some (Json.str t)) = true := by
  refine ⟨?_, ?_, fun _ => rfl⟩
  · by_cases h : envTruthy (env "GEMINI_API_KEY") = true ∧ truthy (reqBody.getProp "apiUrl") = true
        ∧ truthy (reqBody.getProp "payload") = true
        ∧ hasStringForm (reqBody.getProp "apiUrl") = true
    · obtain ⟨call, hc⟩ := proxyHandler_accepted env axiosPost reqBody h
      rw [hc]
      simp [h]
    · have hc := proxyHandler_rejected env axiosPost reqBody h
      rw [hc]
      simp [h]
  · by_cases h : envTruthy (env "GEMINI_API_KEY") = true ∧ truthy (reqBody.getProp "apiUrl") = true
        ∧ truthy (reqBody.getProp "payload") = true
        ∧ hasStringForm (reqBody.getProp "apiUrl") = true
    · obtain ⟨call, hc⟩ := proxyHandler_accepted env axiosPost reqBody h
      rw [hc]
      simp [h]
    · have hc := proxyHandler_rejected env axiosPost reqBody h
      rw [hc]
      simp [h]

/-- C13, refuted as stated: with the secret configured, a request whose payload is the empty
object is not rejected: it is forwarded in one outbound call and answered 200. -/
theorem forwardRequest_empty_payload_counterexample :
    (proxyHandler envWithKey (fun _ => .resolved exampleAnswer)
        (Json.obj [("apiUrl", Json.str "https://example/generate"),
                   ("payload", Json.obj [])])).2
        = [{ method := "POST", url := "https://example/generate?key=SECRET",
             data := Json.obj [], headers := [("Content-Type", "application/json")] }]
      ∧ (proxyHandler envWithKey (fun _ => .resolved exampleAnswer)
        (Json.obj [("apiUrl", Json.str "https://example/generate"),
                   ("payload", Json.obj [])])).1.status = 200 := by
  constructor <;> rfl

/-- C13, amended. With the secret configured, the handler attempts the outbound call if and
only if `apiUrl` and `payload` are both truthy and `apiUrl` has a string form (as every
string has). A request in which one of the two is missing, `null`, `false`, `0` or the empty
string is answered 400 with the fixed envelope before any call; an empty object and an empty
array are truthy, so they pass the check. A request whose fields are truthy but whose
`apiUrl` has no string form is answered 500 without any call. -/
theorem forwardRequest_precondition (env : Env) (axiosPost : Outbound → AxiosOutcome)
    (reqBody : Json) (K : String)
    (hK : env "GEMINI_API_KEY" = some K) (hKne : K ≠ "") :
    ((proxyHandler env axiosPost reqBody).2 ≠ [] ↔
        (truthy (reqBody.getProp "apiUrl") = true ∧ truthy (reqBody.getProp "payload") = true
          ∧ hasStringForm (reqBody.getProp "apiUrl") = true))
      ∧ (¬ (truthy (reqBody.getProp "apiUrl") = true ∧ truthy (reqBody.getProp "payload") = true) →
          (proxyHandler env axiosPost reqBody).1.status = 400
            ∧ (proxyHandler env axiosPost reqBody).1.body
                = Json.obj [("error", Json.str "Missing apiUrl or payload")]
            ∧ (proxyHandler env axiosPost reqBody).2 = [])
      ∧ (truthy (reqBody.getProp "apiUrl") = true → truthy (reqBody.getProp "payload") = true →
          hasStringForm (reqBody.getProp "apiUrl") = false →
          (proxyHandler env axiosPost reqBody).1.status = 500
            ∧ (proxyHandler env axiosPost reqBody).1.body
                = Json.obj [("error", Json.str "Failed to fetch from Gemini API"),
                    ("details", Json.str "Cannot convert object to primitive value")]
            ∧ (proxyHandler env axiosPost reqBody).2 = [])
      ∧ (∀ t : String, hasStringForm (some (Json.str t)) = true)
      ∧ truthy none = false ∧ Json.null.truthy = false ∧ (Json.bool false).truthy = false
      ∧ (Json.num 0).truthy = false ∧ (Json.str "").truthy = false
      ∧ (Json.obj []).truthy = true ∧ (Json.arr []).truthy = true := by
  have hkey : envTruthy (env "GEMINI_API_KEY") = true := by
    rw [hK]
    exact (envTruthy_some_iff K).mpr hKne
  refine ⟨?_, ?_, ?_, fun _ => rfl, rfl, rfl, rfl, rfl, rfl, rfl, rfl⟩
  · by_cases h : truthy (reqBody.getProp "apiUrl") = true ∧ truthy (reqBody.getProp "payload") = true
        ∧ hasStringForm (reqBody.getProp "apiUrl") = true
    · obtain ⟨call, hc⟩ := proxyHandler_accepted env axiosPost reqBody ⟨hkey, h⟩
      rw [hc]
      simp [h]
    · have hc := proxyHandler_rejected env axiosPost reqBody (fun hx => h hx.2)
      rw [hc]
      simp [h]
  · intro h
    rw [proxyHandler_falsy_fields env axiosPost reqBody K hK hKne h]
    exact ⟨rfl, rfl, rfl⟩
  · intro hu hp hs
    rw [proxyHandler_no_string_form env axiosPost reqBody K hK hKne hu hp hs]
    exact ⟨rfl, rfl, rfl⟩

/-- C13 amended, at a request whose payload is the number `0`. -/
theorem forwardRequest_precondition_witness :
    (proxyHandler envWithKey (fun _ => .resolved exampleAnswer)
        (Json.obj [("apiUrl", Json.str "https://example/generate"),
                   ("payload", Json.num 0)])).1.status = 400
      ∧ (proxyHandler envWithKey (fun _ => .resolved exampleAnswer)
        (Json.obj [("apiUrl", Json.str "https://example/generate"),
                   ("payload", Json.num 0)])).1.body
          = Json.obj [("error", Json.str "Missing apiUrl or payload")]
      ∧ (proxyHandler envWithKey (fun _ => .resolved exampleAnswer)
        (Json.obj [("apiUrl", Json.str "https://example/generate"),
                   ("payload", Json.num 0)])).2 = [] :=
  (forwardRequest_precondition envWithKey (fun _ => .resolved exampleAnswer)
    (Json.obj [("apiUrl", Json.str "https://example/generate"), ("payload", Json.num 0)])
    "SECRET" rfl (by decide)).2.1 (by decide)

/-- C14, refuted as stated: for the caller-supplied URL `https://h/p?alt=sse` and the secret
`SECRET` the outbound URL is `https://h/p?alt=sse?key=SECRET`; read the standard way it has
no parameter named `key`, and the value of the caller's parameter `alt` has changed from
`sse` to `sse?key=SECRET`. For the caller-supplied URL `https://h/p#top` the outbound URL is
`https://h/p#top?key=SECRET`, which has no query at all: the key is part of the fragment. -/
theorem key_parameter_counterexample :
    (proxyHandler envWithKey (fun _ => .resolved exampleAnswer)
        (Json.obj [("apiUrl", Json.str "https://h/p?alt=sse"),
                   ("payload", Json.obj [("contents", Json.arr [])])])).2.map Outbound.url
        = ["https://h/p?alt=sse?key=SECRET"]
      ∧ (urlParts "https://h/p?alt=sse").params = [("alt", "sse")]
      ∧ (urlParts "https://h/p?alt=sse?key=SECRET").params = [("alt", "sse?key=SECRET")]
      ∧ (proxyHandler envWithKey (fun _ => .resolved exampleAnswer)
        (Json.obj [("apiUrl", Json.str "https://h/p#top"),
                   ("payload", Json.obj [("contents", Json.arr [])])])).2.map Outbound.url
        = ["https://h/p#top?key=SECRET"]
      ∧ (urlParts "https://h/p#top?key=SECRET").params = []
      ∧ (urlParts "https://h/p#top?key=SECRET").fragment = some "top?key=SECRET" := by
  refine ⟨rfl, ?_, ?_, rfl, ?_, ?_⟩ <;> decide

/-- C14, amended. For every caller-supplied string `apiUrl` that passes validation and
contains neither `?` nor `#`, and every configured secret `K` made of letters, digits and
the characters `-`, `_`, `.`, `~` (the characters that URL encoding and decoding leave as
they are), the outbound URL built by the handler, read the standard way (the first `#`
starts the fragment, before it the first `?` starts the query, `&` separates parameters),
has the path `apiUrl`, no fragment, and exactly one parameter, named `key`, whose value is
`K`. -/
theorem key_query_parameter (env : Env) (axiosPost : Outbound → AxiosOutcome)
    (reqBody : Json) (K u : String) (payload : Json)
    (hK : env "GEMINI_API_KEY" = some K) (hKne : K ≠ "")
    (hu : reqBody.getProp "apiUrl" = some (Json.str u)) (hune : u ≠ "")
    (hp : reqBody.getProp "payload" = some payload) (hpt : payload.truthy = true)
    (hq : '?' ∉ u.toList) (hf : '#' ∉ u.toList)
    (hchars : ∀ c ∈ K.toList, isUnreserved c = true) :
    (proxyHandler env axiosPost reqBody).2.map (fun call => urlParts call.url)
      = [{ path := u, params := [("key", K)], fragment := none }] := by
  have hut : (Json.str u).truthy = true := by simp [Json.truthy, hune]
  have ha : '&' ∉ K.toList := fun hmem => absurd (hchars _ hmem) (by decide)
  have hg : '#' ∉ K.toList := fun hmem => absurd (hchars _ hmem) (by decide)
  rw [proxyHandler_valid_calls env axiosPost reqBody K (Json.str u) payload u hK hKne hu hut rfl
    hp hpt]
  simp only [List.map_cons, List.map_nil]
  rw [urlParts_key u K hq hf ha hg]

/-- C14 amended, at the example request of the specification. -/
theorem key_query_parameter_witness :
    (proxyHandler envWithKey (fun _ => .resolved exampleAnswer) exampleBody).2.map
        (fun call => urlParts call.url)
      = [{ path := "https://example/generate", params := [("key", "SECRET")],
           fragment := none }] :=
  key_query_parameter envWithKey (fun _ => .resolved exampleAnswer) exampleBody "SECRET"
    "https://example/generate" (Json.obj [("contents", Json.arr [])]) rfl (by decide) rfl
    (by decide) rfl rfl (by decide) (by decide) (by decide)

/-! ## The client application: sign-up, care plan, peer chat, screens, journal -/

/-- C15, evaluated at the age text `abc` with every other field valid: `parseInt` gives `NaN`,
the comparison with 18 is false, and so `handleSignup` creates the account and writes the
profile, and `saveUserProfile` writes the profile, each with the age `NaN`; no validation
message is shown. -/
theorem age_gate_nonnumeric :
    parseInt "abc" = none
      ∧ (handleSignup (fun _ _ => .ok "u1") (fun _ => .ok ()) "Asha" "asha@example.com"
          "secret1" "abc" "Pune").effects
        = [ .createUser "asha@example.com" "secret1",
            .setDoc "/users/u1/profile/main"
              { name := "Asha", email := "asha@example.com", age := none, location := "Pune" } ]
      ∧ (handleSignup (fun _ _ => .ok "u1") (fun _ => .ok ()) "Asha" "asha@example.com"
          "secret1" "abc" "Pune").errorText = none
      ∧ (saveUserProfile (some "u1") (fun _ => .ok ()) "Asha" "asha@example.com" "abc"
          "Pune").effects
        = [ .setDoc "/users/u1/profile/main"
              { name := "Asha", email := "asha@example.com", age := none, location := "Pune" } ]
      ∧ (saveUserProfile (some "u1") (fun _ => .ok ()) "Asha" "asha@example.com" "abc"
          "Pune").errorText = none := by
  refine ⟨by decide, rfl, rfl, rfl, rfl⟩

/-- C16, refuted as stated: after the journal defaults were loaded from the entry
`I feel tired and low today` of 1/1/2025 and the field was left as loaded, the prompt is built
from the journal content alone, not from the trimmed text of the field, which still carries
the `[Loaded from Journal - 1/1/2025]` heading. -/
theorem carePlan_loaded_counterexample :
    (loadCarePlanDefaults (some "u1") (some ("1/1/2025", "I feel tired and low today"))
        { latestJournalContent := "", planQuery := "", placeholder := "" }).planQuery
        = "[Loaded from Journal - 1/1/2025]\n\nI feel tired and low today"
      ∧ jsTrim "[Loaded from Journal - 1/1/2025]\n\nI feel tired and low today"
        = "[Loaded from Journal - 1/1/2025]\n\nI feel tired and low today"
      ∧ generateCarePlan true "I feel tired and low today"
          "[Loaded from Journal - 1/1/2025]\n\nI feel tired and low today"
        = .call (Json.obj
            [ ("contents", Json.arr [partsOf (Json.str
                "My current state is: \"I feel tired and low today\"")]),
              ("tools", Json.arr [Json.obj [("google_search", Json.obj [])]]),
              ("systemInstruction", partsOf (Json.str carePlanSystemPrompt)) ]) := by
  refine ⟨rfl, by decide, rfl⟩

/-- C16, amended. For a logged-in user, `generateCarePlan` builds the prompt
`My current state is: "<q>"` and rejects the request without calling the AI exactly when
`q` has fewer than 10 characters, where `q` is the trimmed text of the field when that text
does not begin with `[Loaded from Journal`, and `q` is the content of the loaded journal
entry when the field still holds the text that `loadCarePlanDefaults` wrote. -/
theorem carePlan_query (isMomRole : Bool) (latestJournalContent field : String)
    (hrole : isMomRole = true) :
    (startsWith "[Loaded from Journal".toList (jsTrim field).toList = false →
        (jsLength (jsTrim field) < 10 →
          generateCarePlan isMomRole latestJournalContent field
            = .alert ("Please provide a detailed description of your current state (mood, "
                ++ "symptoms, energy).") "Warning")
        ∧ (¬ jsLength (jsTrim field) < 10 →
          generateCarePlan isMomRole latestJournalContent field
            = .call (Json.obj
                [ ("contents", Json.arr [partsOf (Json.str
                    ("My current state is: \"" ++ jsTrim field ++ "\""))]),
                  ("tools", Json.arr [Json.obj [("google_search", Json.obj [])]]),
                  ("systemInstruction", partsOf (Json.str carePlanSystemPrompt)) ])))
      ∧ (∀ (uid dateText content : String) (st : CarePlanState), uid ≠ "" →
        (jsLength content < 10 →
          generateCarePlan isMomRole
              (loadCarePlanDefaults (some uid) (some (dateText, content)) st).latestJournalContent
              (loadCarePlanDefaults (some uid) (some (dateText, content)) st).planQuery
            = .alert ("Please provide a detailed description of your current state (mood, "
                ++ "symptoms, energy).") "Warning")
        ∧ (¬ jsLength content < 10 →
          generateCarePlan isMomRole
              (loadCarePlanDefaults (some uid) (some (dateText, content)) st).latestJournalContent
              (loadCarePlanDefaults (some uid) (some (dateText, content)) st).planQuery
            = .call (Json.obj
                [ ("contents", Json.arr [partsOf (Json.str
                    ("My current state is: \"" ++ content ++ "\""))]),
                  ("tools", Json.arr [Json.obj [("google_search", Json.obj [])]]),
                  ("systemInstruction", partsOf (Json.str carePlanSystemPrompt)) ]))) := by
  subst hrole
  refine ⟨?_, ?_⟩
  · intro hm
    have hq : (if startsWith "[Loaded from Journal".toList (jsTrim field).toList then
        latestJournalContent else jsTrim field) = jsTrim field := by
      rw [hm]
      rfl
    rw [generateCarePlan_of_query _ _ _ hq]
    exact ⟨fun hlen => if_pos hlen, fun hlen => if_neg hlen⟩
  · intro uid dateText content st huid
    have hload : loadCarePlanDefaults (some uid) (some (dateText, content)) st
        = { latestJournalContent := content,
            planQuery := "[Loaded from Journal - " ++ dateText ++ "]\n\n" ++ content,
            placeholder := "Using journal data... You can still modify this if needed." } := by
      simp [loadCarePlanDefaults, envTruthy, huid]
    rw [hload]
    have hm := loaded_text_keeps_marker dateText content
    have hq : (if startsWith "[Loaded from Journal".toList
        (jsTrim ("[Loaded from Journal - " ++ dateText ++ "]\n\n" ++ content)).toList then
        content else jsTrim ("[Loaded from Journal - " ++ dateText ++ "]\n\n" ++ content))
        = content := by
      rw [hm]
      rfl
    dsimp only
    rw [generateCarePlan_of_query _ _ _ hq]
    exact ⟨fun hlen => if_pos hlen, fun hlen => if_neg hlen⟩

/-- C16 amended, at a text typed by the user that does not carry the journal heading. -/
theorem carePlan_query_witness :
    generateCarePlan true "I feel tired and low today" "  I have a mild headache  "
      = .call (Json.obj
          [ ("contents", Json.arr [partsOf (Json.str
              ("My current state is: \"" ++ jsTrim "  I have a mild headache  " ++ "\""))]),
            ("tools", Json.arr [Json.obj [("google_search", Json.obj [])]]),
            ("systemInstruction", partsOf (Json.str carePlanSystemPrompt)) ]) :=
  ((carePlan_query true "I feel tired and low today" "  I have a mild headache  " rfl).1
    (by decide)).2 (by decide)

/-- C17, evaluated at an AI that opens with the message `Hi`: `getAiPeerMatchResponse` appends
the opening message to `chatHistory`, but `startPeerMatch` then assigns the empty array, so
`chatHistory` is empty when it completes and the contents of the first `getAiChatReply`
payload are the first reply of the user alone. -/
theorem peer_chat_history_lost :
    (getAiPeerMatchResponse (fun _ => .ok (aiAnswer "Hi")) "I cannot sleep at night" "Tired"
        "None" "sleep" []).2 = [chatEntry "model" (Json.str "Hi")]
      ∧ (startPeerMatch true (fun _ => .ok (aiAnswer "Hi")) "Tired" "None"
          "I cannot sleep at night" "sleep" []).opening = some (Json.str "Hi")
      ∧ (startPeerMatch true (fun _ => .ok (aiAnswer "Hi")) "Tired" "None"
          "I cannot sleep at night" "sleep" []).chatHistory = []
      ∧ (getAiChatReply (fun _ => .ok (aiAnswer "Hi")) "Thank you"
          (startPeerMatch true (fun _ => .ok (aiAnswer "Hi")) "Tired" "None"
            "I cannot sleep at night" "sleep" []).chatHistory).payload.getProp "contents"
        = some (Json.arr [chatEntry "user" (Json.str "Thank you")]) := by
  refine ⟨rfl, rfl, rfl, rfl⟩

/-- C18. For every requested screen: when `userId` is `null` and the screen is none of
`login-screen`, `signup-screen`, `forgot-password-screen`, `changeScreen` goes on with
`login-screen`, that is the only element it un-hides, and none of the four pre-load steps
runs; when `userId` holds a user id, or the requested screen is one of those three, the
requested screen is used unchanged. -/
theorem changeScreen_login_gate (userId : Option String) (hasElement : String → Bool)
    (requested : String) :
    (userId = none → requested ∉ authScreens →
        (changeScreen userId hasElement requested).screenId = "login-screen"
          ∧ (changeScreen userId hasElement requested).shown
              = (if hasElement "login-screen" then some "login-screen" else none)
          ∧ (changeScreen userId hasElement requested).preloads = [])
      ∧ (((∃ uid, userId = some uid ∧ uid ≠ "") ∨ requested ∈ authScreens) →
        (changeScreen userId hasElement requested).screenId = requested
          ∧ (changeScreen userId hasElement requested).shown
              = (if hasElement requested then some requested else none)) := by
  constructor
  · intro hu hr
    have hs : (if (!envTruthy userId && !authScreens.contains requested) = true then
        "login-screen" else requested) = "login-screen" := by
      simp [hu, envTruthy, hr]
    simp only [changeScreen, hs]
    exact ⟨trivial, trivial, by decide⟩
  · intro h
    have hs : (if (!envTruthy userId && !authScreens.contains requested) = true then
        "login-screen" else requested) = requested := by
      rcases h with ⟨uid, hu, hne⟩ | hr
      · simp [hu, envTruthy, hne]
      · simp [hr]
    simp only [changeScreen, hs]
    exact ⟨trivial, trivial⟩

/-- C18, at a signed-out user asking for the dashboard. -/
theorem changeScreen_login_gate_witness :
    (changeScreen none (fun _ => true) "dashboard").screenId = "login-screen"
      ∧ (changeScreen none (fun _ => true) "dashboard").shown
          = (if (fun _ => true) "login-screen" then some "login-screen" else none)
      ∧ (changeScreen none (fun _ => true) "dashboard").preloads = [] :=
  (changeScreen_login_gate none (fun _ => true) "dashboard").1 rfl (by decide)

/-- C19, refuted as stated: when the candidate text is the valid JSON text of an object with
a `mood` field only, `getMoodAnalysis` returns that object, which has no `insight` field. -/
theorem moodAnalysis_shape_counterexample :
    getMoodAnalysis moodOnlyParse (fun _ => .ok (aiAnswer "\x7b\"mood\":\"Tired\"\x7d"))
        "I feel tired" = Json.obj [("mood", Json.str "Tired")]
      ∧ (getMoodAnalysis moodOnlyParse (fun _ => .ok (aiAnswer "\x7b\"mood\":\"Tired\"\x7d"))
        "I feel tired").getProp "insight" = none := by
  constructor <;> rfl

/-- C19, amended. `getMoodAnalysis` always returns a value. It returns the object
`{mood: 'Reflective', insight: 'It takes courage to write your feelings. Keep going.'}`, which
has both fields, when the proxy call fails, when the answer is `null` or has no truthy
candidate text, when the candidate text has no string form, and when it is not valid JSON.
When the candidate text is valid JSON it returns the parsed value as it is, whatever fields
that value has. -/
theorem getMoodAnalysis_contract (jsonParse : String → Option Json)
    (callAi : Json → Except ClientError Json) (entryContent : String)
    (outcome : Except ClientError Json) (hc : callAi (moodPayload entryContent) = outcome) :
    (∀ e, outcome = .error e → getMoodAnalysis jsonParse callAi entryContent = defaultMood)
      ∧ (∀ result e, outcome = .ok result → candidateText result = .error e →
          getMoodAnalysis jsonParse callAi entryContent = defaultMood)
      ∧ (∀ result text, outcome = .ok result → candidateText result = .ok text →
          truthy text = false → getMoodAnalysis jsonParse callAi entryContent = defaultMood)
      ∧ (∀ result jsonText, outcome = .ok result → candidateText result = .ok (some jsonText) →
          jsonText.truthy = true → jsonText.toJsString = none →
          getMoodAnalysis jsonParse callAi entryContent = defaultMood)
      ∧ (∀ result jsonText text, outcome = .ok result →
          candidateText result = .ok (some jsonText) → jsonText.truthy = true →
          jsonText.toJsString = some text → jsonParse text = none →
          getMoodAnalysis jsonParse callAi entryContent = defaultMood)
      ∧ (∀ result jsonText text parsed, outcome = .ok result →
          candidateText result = .ok (some jsonText) → jsonText.truthy = true →
          jsonText.toJsString = some text → jsonParse text = some parsed →
          getMoodAnalysis jsonParse callAi entryContent = parsed)
      ∧ defaultMood.getProp "mood" = some (Json.str "Reflective")
      ∧ defaultMood.getProp "insight"
          = some (Json.str "It takes courage to write your feelings. Keep going.") := by
  subst hc
  refine ⟨?_, ?_, ?_, ?_, ?_, ?_, rfl, rfl⟩
  · intro e he
    simp [getMoodAnalysis, he]
  · intro result e he ht
    simp [getMoodAnalysis, he, ht]
  · intro result text he ht hf
    cases text with
    | none => simp [getMoodAnalysis, he, ht]
    | some j =>
      have hj : j.truthy = false := hf
      simp [getMoodAnalysis, he, ht, hj]
  · intro result jsonText he ht htr hs
    simp [getMoodAnalysis, he, ht, htr, hs]
  · intro result jsonText text he ht htr hs hp
    simp [getMoodAnalysis, he, ht, htr, hs, hp]
  · intro result jsonText text parsed he ht htr hs hp
    simp [getMoodAnalysis, he, ht, htr, hs, hp]

/-- C19 amended, at a proxy call that fails: the default object is returned. -/
theorem getMoodAnalysis_contract_witness :
    getMoodAnalysis moodOnlyParse (fun _ => .error (.network "Failed to fetch")) "I feel tired"
      = defaultMood :=
  (getMoodAnalysis_contract moodOnlyParse (fun _ => .error (.network "Failed to fetch"))
    "I feel tired" (.error (.network "Failed to fetch")) rfl).1 _ rfl

/-! ## Noninterference of the secret -/

/-- C20. For any two configured non-empty secrets `K1` and `K2`, the same request, and
upstreams that give the same outcome to the call of either run, the handler returns the
same status and the same body in both runs; the outbound calls of the two runs agree in
method, body and headers, so the secret influences only the outbound URL. -/
theorem secret_noninterference (env1 env2 : Env) (axiosPost1 axiosPost2 : Outbound → AxiosOutcome)
    (reqBody : Json) (K1 K2 : String)
    (h1 : env1 "GEMINI_API_KEY" = some K1) (h1ne : K1 ≠ "")
    (h2 : env2 "GEMINI_API_KEY" = some K2) (h2ne : K2 ≠ "")
    (hsame : ∀ call1 ∈ (proxyHandler env1 axiosPost1 reqBody).2,
      ∀ call2 ∈ (proxyHandler env2 axiosPost2 reqBody).2, axiosPost1 call1 = axiosPost2 call2) :
    (proxyHandler env1 axiosPost1 reqBody).1.status = (proxyHandler env2 axiosPost2 reqBody).1.status
      ∧ (proxyHandler env1 axiosPost1 reqBody).1.body = (proxyHandler env2 axiosPost2 reqBody).1.body
      ∧ (proxyHandler env1 axiosPost1 reqBody).2.map (fun call => (call.method, call.data, call.headers))
        = (proxyHandler env2 axiosPost2 reqBody).2.map
            (fun call => (call.method, call.data, call.headers)) := by
  by_cases h : truthy (reqBody.getProp "apiUrl") = true ∧ truthy (reqBody.getProp "payload") = true
  · obtain ⟨hu, hp⟩ := h
    cases hau : reqBody.getProp "apiUrl" with
    | none => simp [hau, truthy] at hu
    | some apiUrl =>
      cases hpl : reqBody.getProp "payload" with
      | none => simp [hpl, truthy] at hp
      | some payload =>
        rw [hau] at hu
        rw [hpl] at hp
        cases hs : apiUrl.toJsString with
        | none =>
          rw [proxyHandler_unprintable env1 axiosPost1 reqBody K1 apiUrl payload h1 h1ne hau hu
              hs hpl hp,
            proxyHandler_unprintable env2 axiosPost2 reqBody K2 apiUrl payload h2 h2ne hau hu
              hs hpl hp]
          exact ⟨rfl, rfl, rfl⟩
        | some u =>
          have hc1 := proxyHandler_valid_calls env1 axiosPost1 reqBody K1 apiUrl payload u h1 h1ne
            hau hu hs hpl hp
          have hc2 := proxyHandler_valid_calls env2 axiosPost2 reqBody K2 apiUrl payload u h2 h2ne
            hau hu hs hpl hp
          have hv1 := proxyHandler_valid env1 axiosPost1 reqBody K1 apiUrl payload u h1 h1ne hau
            hu hs hpl hp
          have hv2 := proxyHandler_valid env2 axiosPost2 reqBody K2 apiUrl payload u h2 h2ne hau
            hu hs hpl hp
          have hsm := hsame _ (by rw [hc1]; exact List.mem_singleton.mpr rfl) _
            (by rw [hc2]; exact List.mem_singleton.mpr rfl)
          rw [hv1, hv2, hsm]
          split <;> exact ⟨rfl, rfl, rfl⟩
  · rw [proxyHandler_falsy_fields env1 axiosPost1 reqBody K1 h1 h1ne h,
      proxyHandler_falsy_fields env2 axiosPost2 reqBody K2 h2 h2ne h]
    exact ⟨rfl, rfl, rfl⟩

/-- C20, at the secrets `SECRET` and `OTHER` with the example request and answer. -/
theorem secret_noninterference_witness :
    (proxyHandler envWithKey (fun _ => .resolved exampleAnswer) exampleBody).1.status
        = (proxyHandler (fun name => if name = "GEMINI_API_KEY" then some "OTHER" else none)
            (fun _ => .resolved exampleAnswer) exampleBody).1.status
      ∧ (proxyHandler envWithKey (fun _ => .resolved exampleAnswer) exampleBody).1.body
        = (proxyHandler (fun name => if name = "GEMINI_API_KEY" then some "OTHER" else none)
            (fun _ => .resolved exampleAnswer) exampleBody).1.body :=
  have h := secret_noninterference envWithKey
    (fun name => if name = "GEMINI_API_KEY" then some "OTHER" else none)
    (fun _ => .resolved exampleAnswer) (fun _ => .resolved exampleAnswer) exampleBody
    "SECRET" "OTHER" rfl (by decide) rfl (by decide) (fun _ _ _ _ => rfl)
  ⟨h.1, h.2.1⟩

end SheToMom
